import Mathlib

/-!
# Verification of the channel management store (`src/user_channel/channel_mgmt.cpp`)

Shallow embedding of the IPMI channel configuration / access-control store.
The embedding models, straight from the source:

* the string/code converter tables and functions (`convertTo...Index` /
  `convertTo...String`);
* the per-channel registry (`ChannelData` records, indexed by channel number);
* the two JSON-backed access layers (volatile / non-volatile) together with
  their staleness detection (`checkAndReload...Data`), (de)serialization
  (`readChannel...Data` / `writeChannel...Data`), the static config loader
  (`loadChannelConfig`) and the bootstrap (`initChannelPersistData`);
* the public accessors (`getChannelInfo`, `getChannelAccessData`,
  `setChannelAccessData`, `getChannelAccessPersistData`,
  `setChannelAccessPersistData`, `getChannelAuthTypeSupported`,
  `getChannelEnabledAuthType`).

Modelling conventions:

* Machine integers are `Nat`/`Int`.  `uint8_t` channel numbers are `Nat`
  (all comparisons in the source are on non-negative values).
* C++ exceptions are modelled with `Except`: a function whose body may throw
  returns `Except State ...`, where the `.error` payload is the memory state
  at the moment of the throw (the C++ code does not roll back on a throw).
* The file system is explicit state (`FS`).  Each file is an
  `Option JsonFile` (`none` = absent/unopenable); modification times are
  drawn from a monotone counter `clock`, so every successful write gets a
  fresh timestamp.  `readCount` is the injected file-access counter the
  spec's test plan asks for: it is bumped on every `readJsonFile` call and
  is otherwise inert.
* `stat` failure is reported as `-EIO = -5`, exactly as
  `ChannelConfig::getUpdatedFileTime` does.
* Out-of-bounds array accesses in the C++ (undefined behaviour) are modelled
  by `Option`: an operation that would read `channelData[i]` with
  `i >= maxIpmiChannels` returns `none`.
* The values that live in `channel_mgmt.hpp` / the IPMI headers (not part of
  the sources provided) are modelled from the spec where noted.
-/

namespace ChannelMgmt

/-! ## Constants and converter tables (channel_mgmt.cpp lines 36-113) -/

/-- Modelled from the spec: `maxIpmiChannels` is declared in
`channel_mgmt.hpp`, which is not among the provided sources.  The spec fixes
only that the registry is a fixed-capacity array indexed by
`0 .. maxIpmiChannels - 1`; the concrete capacity is 16 (the IPMI channel
space). -/
def maxIpmiChannels : Nat := 16

/-- Modelled from the spec: completion codes from the IPMI headers (not in
the provided sources).  Only distinctness of the four codes matters to the
spec's error taxonomy. -/
def IPMI_CC_OK : Nat := 0x00

/-- Modelled from the spec: the InvalidRequest completion code. -/
def IPMI_CC_INVALID_FIELD_REQUEST : Nat := 0xCC

/-- Modelled from the spec: the NotSupported completion code. -/
def IPMI_CC_ACTION_NOT_SUPPORTED_FOR_CHANNEL : Nat := 0x82

/-- Modelled from the spec: the Unspecified completion code. -/
def IPMI_CC_UNSPECIFIED_ERROR : Nat := 0xFF

/-- Modelled from the spec: field-mask bits for the access-record write
operations, declared in `channel_mgmt.hpp` (not in the provided sources).
One bit per field of {access mode, user-auth, per-message-auth, alerting,
privilege limit}. -/
def setAccessMode : Nat := 0x01

/-- Modelled from the spec: field-mask bit for the user-auth field. -/
def setUserAuthEnabled : Nat := 0x02

/-- Modelled from the spec: field-mask bit for the per-message-auth field. -/
def setMsgAuthEnabled : Nat := 0x04

/-- Modelled from the spec: field-mask bit for the alerting field. -/
def setAlertingEnabled : Nat := 0x08

/-- Modelled from the spec: field-mask bit for the privilege-limit field. -/
def setPrivLimit : Nat := 0x10

/-- Session-support class "none" (`EChannelSessSupported::none`), code 0:
first token of the session-support enumeration. -/
def sessionNone : Nat := 0

/-- Embeds `accessModeList` (channel_mgmt.cpp lines 105-106). -/
def accessModeList : List String :=
  ["disabled", "pre-boot", "always_available", "shared"]

/-- Embeds `sessionSupportList` (channel_mgmt.cpp lines 108-109). -/
def sessionSupportList : List String :=
  ["session-less", "single-session", "multi-session", "session-based"]

/-- Embeds `privList` (channel_mgmt.cpp lines 111-113). -/
def privList : List String :=
  ["priv-reserved", "priv-callback", "priv-user",
   "priv-operator", "priv-admin", "priv-oem"]

/-- Embeds `mediumTypeMap` (channel_mgmt.cpp lines 75-90).  The numeric codes are
those of `EChannelMediumType`; the enum lives in a header that is not among
the provided sources, so the codes are modelled from the spec ("fixed
name→code tables").  No claim depends on the concrete code values. -/
def mediumTypeMap : List (String × Nat) :=
  [("reserved", 0), ("ipmb", 1), ("icmb-v1.0", 2), ("icmb-v0.9", 3),
   ("lan-802.3", 4), ("serial", 5), ("other-lan", 6), ("pci-smbus", 7),
   ("smbus-v1.0", 8), ("smbus-v2.0", 9), ("usb-1x", 10), ("usb-2x", 11),
   ("system-interface", 12), ("oem", 96), ("unknown", 130)]

/-- Embeds `protocolTypeMap` (channel_mgmt.cpp lines 92-103).  Codes modelled from
the spec as for `mediumTypeMap`. -/
def protocolTypeMap : List (String × Nat) :=
  [("na", 0), ("ipmb-1.0", 1), ("icmb-2.0", 2), ("reserved", 3),
   ("ipmi-smbus", 4), ("kcs", 5), ("smic", 6), ("bt-10", 7),
   ("bt-15", 8), ("tmode", 9), ("oem", 30)]

/-- Default channel name (`defaultChannelName`, line 63). -/
def defaultChannelName : String := "RESERVED"

/-- Embeds `defaultMediumType = EChannelMediumType::reserved` (line 64). -/
def defaultMediumType : Nat := 0

/-- Embeds `defaultProtocolType = EChannelProtocolType::reserved` (line 66). -/
def defaultProtocolType : Nat := 3

/-- Embeds `defaultSessionSupported = EChannelSessSupported::none` (line 68). -/
def defaultSessionSupported : Nat := sessionNone

/-- Embeds `defaultAuthType = EAuthType::none` (line 70).  Modelled from the spec:
`EAuthType` lives in a header not among the provided sources; `none` is its
first enumerator, code 0. -/
def defaultAuthType : Nat := 0

/-- Embeds `defaultIsIpmiState` (line 72). -/
def defaultIsIpmiState : Bool := false

/-- The error carried by a converter failure: every converter throws
`std::invalid_argument` on bad input. -/
inductive ConvErr where
  | invalidArgument
deriving DecidableEq

deriving instance DecidableEq for Except

/-! ## Converters (channel_mgmt.cpp lines 466-561) -/

/-- Embeds `ChannelConfig::convertToAccessModeIndex` (lines 466-479): position of
the token in `accessModeList`, `invalid_argument` if absent. -/
def convertToAccessModeIndex (mode : String) : Except ConvErr Nat :=
  match accessModeList.findIdx? (· == mode) with
  | none => .error .invalidArgument
  | some i => .ok i

/-- Embeds `ChannelConfig::convertToAccessModeString` (lines 481-490):
`accessModeList.at(value)`, `invalid_argument` if `value` is out of the
table's bounds. -/
def convertToAccessModeString (value : Nat) : Except ConvErr String :=
  if accessModeList.length ≤ value then .error .invalidArgument
  else .ok (accessModeList.getD value "")

/-- Embeds `ChannelConfig::convertToPrivLimitIndex` (lines 492-504). -/
def convertToPrivLimitIndex (value : String) : Except ConvErr Nat :=
  match privList.findIdx? (· == value) with
  | none => .error .invalidArgument
  | some i => .ok i

/-- Embeds `ChannelConfig::convertToPrivLimitString` (lines 506-515). -/
def convertToPrivLimitString (value : Nat) : Except ConvErr String :=
  if privList.length ≤ value then .error .invalidArgument
  else .ok (privList.getD value "")

/-- Embeds `ChannelConfig::convertToSessionSupportIndex` (lines 517-531). -/
def convertToSessionSupportIndex (value : String) : Except ConvErr Nat :=
  match sessionSupportList.findIdx? (· == value) with
  | none => .error .invalidArgument
  | some i => .ok i

/-- Embeds `ChannelConfig::convertToMediumTypeIndex` (lines 533-546): lookup in
`mediumTypeMap`, `invalid_argument` if the token is not a key. -/
def convertToMediumTypeIndex (value : String) : Except ConvErr Nat :=
  match mediumTypeMap.find? (fun p => p.1 == value) with
  | none => .error .invalidArgument
  | some p => .ok p.2

/-- Embeds `ChannelConfig::convertToProtocolTypeIndex` (lines 548-561). -/
def convertToProtocolTypeIndex (value : String) : Except ConvErr Nat :=
  match protocolTypeMap.find? (fun p => p.1 == value) with
  | none => .error .invalidArgument
  | some p => .ok p.2

/-- Modelled from the spec: `isValidAccessMode` from `channel_mgmt.hpp`
(not in the provided sources): membership of the code in the access-mode
enumeration `disabled .. shared` = `0 .. 3`. -/
def isValidAccessMode (mode : Nat) : Bool :=
  mode < accessModeList.length

/-- Modelled from the spec: `isValidPrivLimit` from `channel_mgmt.hpp`
(not in the provided sources): membership in the privilege enumeration. -/
def isValidPrivLimit (priv : Nat) : Bool :=
  priv < privList.length

/-! ## Data model (spec §3; `ChannelData` etc. from channel_mgmt.hpp) -/

/-- One access-control record (`struct ChannelAccess`): access mode,
the three auth/alerting toggles and the privilege limit.  Modelled from the
spec (the struct lives in a header not among the provided sources); the
field set is exactly the one the .cpp reads and writes. -/
structure ChannelAccess where
  accessMode : Nat
  userAuthDisabled : Bool
  perMsgAuthDisabled : Bool
  alertingDisabled : Bool
  privLimit : Nat
deriving DecidableEq

/-- The two access layers of a channel (`struct ChannelAccessData`). -/
structure ChannelAccessData where
  chVolatileData : ChannelAccess
  chNonVolatileData : ChannelAccess
deriving DecidableEq

/-- Immutable capability block (`struct ChannelInfo`). -/
structure ChannelInfo where
  mediumType : Nat
  protocolType : Nat
  sessionSupported : Nat
  isIpmi : Bool
  authTypeSupported : Nat
deriving DecidableEq

/-- One slot of the channel registry (`struct ChannelData`). -/
structure ChannelData where
  chName : String
  chID : Nat
  isChValid : Bool
  activeSessCount : Nat
  chInfo : ChannelInfo
  chAccess : ChannelAccessData
deriving DecidableEq

/-- The all-zero access record, result of the `std::fill(..., 0)` in
`loadChannelConfig`. -/
def zeroAccess : ChannelAccess :=
  { accessMode := 0, userAuthDisabled := false, perMsgAuthDisabled := false,
    alertingDisabled := false, privLimit := 0 }

/-- The all-zero channel slot (`std::fill` of the record with zero bytes in
`loadChannelConfig`, line 636-639; a zeroed `std::string` is the empty
string). -/
def zeroChannelData : ChannelData :=
  { chName := "", chID := 0, isChValid := false, activeSessCount := 0,
    chInfo := { mediumType := 0, protocolType := 0, sessionSupported := 0,
                isIpmi := false, authTypeSupported := 0 },
    chAccess := { chVolatileData := zeroAccess, chNonVolatileData := zeroAccess } }

/-! ## JSON files (external interfaces, spec §6) -/

/-- One channel's entry of an access file (volatile, non-volatile or the
shipped default): the five keys `access_mode`, `user_auth_disabled`,
`per_msg_auth_disabled`, `alerting_disabled`, `priv_limit`; the first and
last are strings, validated through the converters on read. -/
structure AccessJson where
  accessMode : String
  userAuthDisabled : Bool
  perMsgAuthDisabled : Bool
  alertingDisabled : Bool
  privLimit : String
deriving DecidableEq

/-- Parsed content of an access file: either not valid JSON (`corrupt`, the
"discarded" value `Json::parse(..., false)` yields) or an object keyed by
channel number.  Keys are modelled as the parsed `std::stoi` result of the
decimal key string. -/
inductive JsonFile where
  | corrupt : JsonFile
  | entries : List (Nat × AccessJson) → JsonFile
deriving DecidableEq

/-- The nested `channel_info` object of one entry of the static channel
config file.  `authTypeSupported` models possible `auth_type_supported`
content in the file; `loadChannelConfig` never reads it (line 685-686
forces the default instead). -/
structure ChanInfoJson where
  mediumType : String
  protocolType : String
  sessionSupported : String
  isIpmi : Bool
  authTypeSupported : Option String
deriving DecidableEq

/-- One entry of the static channel config file: `name`, `is_valid`,
optional `active_sessions` and the nested `channel_info` object (`none`
models a null/missing `channel_info`, line 662). -/
structure ChanCfgJson where
  name : String
  isValid : Bool
  activeSessions : Option Nat
  chInfo : Option ChanInfoJson
deriving DecidableEq

/-- The file system visible to channel_mgmt.cpp: the static config file,
the shipped default access file, and the two read/write access files with
their modification times.  `clock` is the monotone time source stamping
writes; `readCount` is the ghost file-access counter (spec §8's "injected
file-access counter"). -/
structure FS where
  configFile : Option (List (Nat × ChanCfgJson))
  defaultAccessFile : Option JsonFile
  nvFile : Option JsonFile
  nvTime : Nat
  volFile : Option JsonFile
  volTime : Nat
  clock : Nat
  readCount : Nat
deriving DecidableEq

/-- The mutable state of `ChannelConfig`: the registry array
(`channelData`, modelled as a list of length `maxIpmiChannels`), the two
cached modification timestamps, and the file system. -/
structure State where
  channelData : List ChannelData
  voltFileLastUpdatedTime : Int
  nvFileLastUpdatedTime : Int
  fs : FS
deriving DecidableEq

/-- Embeds `ChannelConfig::getUpdatedFileTime` for the volatile file: `stat` fails
(returns `-EIO = -5`) exactly when the file is absent, else the
modification time. -/
def statVol (fs : FS) : Int :=
  match fs.volFile with
  | none => -5
  | some _ => (fs.volTime : Int)

/-- Embeds `ChannelConfig::getUpdatedFileTime` for the non-volatile file. -/
def statNv (fs : FS) : Int :=
  match fs.nvFile with
  | none => -5
  | some _ => (fs.nvTime : Int)

/-- Ghost bookkeeping for `readJsonFile`: one file access. -/
def bumpRead (st : State) : State :=
  { st with fs := { st.fs with readCount := st.fs.readCount + 1 } }

/-- In-place update of slot `i` of the registry; a no-op when `i` is out of
bounds (the model's stand-in for the C++ out-of-bounds write, which no
claim exercises). -/
def modifyCh (l : List ChannelData) (i : Nat) (f : ChannelData → ChannelData) :
    List ChannelData :=
  match l[i]? with
  | some v => l.set i (f v)
  | none => l

/-- Field update of the volatile access record of channel `ch`. -/
def updVolatile (st : State) (ch : Nat) (f : ChannelAccess → ChannelAccess) : State :=
  { st with channelData := modifyCh st.channelData ch (fun cd =>
      { cd with chAccess := { cd.chAccess with
          chVolatileData := f cd.chAccess.chVolatileData } }) }

/-- Field update of the non-volatile access record of channel `ch`. -/
def updNonVolatile (st : State) (ch : Nat) (f : ChannelAccess → ChannelAccess) : State :=
  { st with channelData := modifyCh st.channelData ch (fun cd =>
      { cd with chAccess := { cd.chAccess with
          chNonVolatileData := f cd.chAccess.chNonVolatileData } }) }

/-! ## Access-layer deserialization (readChannelVolatileData /
readChannelPersistData, channel_mgmt.cpp lines 705-840)

Exceptions are modelled as `Except State ...`: the `.error` payload is the
memory state at the throw (no rollback). -/

/-- Processing of one entry of the volatile access file (loop body of
`readChannelVolatileData`, lines 720-756): reject channel keys with
`chNum > maxIpmiChannels` (note `>`, not `>=`, exactly as line 724), then
convert and assign field by field in source order — `access_mode` first
(its converter may throw before anything is written), the three booleans,
then `priv_limit` (whose converter may throw after the first four fields
have already been stored). -/
def applyVolAccessEntry (st : State) (chNum : Nat) (j : AccessJson) :
    Except State State :=
  if chNum > maxIpmiChannels then .error st
  else
    match convertToAccessModeIndex j.accessMode with
    | .error _ => .error st
    | .ok am =>
      let st1 := updVolatile st chNum (fun a =>
        { a with accessMode := am, userAuthDisabled := j.userAuthDisabled,
                 perMsgAuthDisabled := j.perMsgAuthDisabled,
                 alertingDisabled := j.alertingDisabled })
      match convertToPrivLimitIndex j.privLimit with
      | .error _ => .error st1
      | .ok pl => .ok (updVolatile st1 chNum (fun a => { a with privLimit := pl }))

/-- The entry loop of `readChannelVolatileData`: entries are processed in
file order; the first failure throws, keeping all updates made so far. -/
def applyVolEntries : List (Nat × AccessJson) → State → Except State State
  | [], st => .ok st
  | (c, j) :: rest, st =>
    match applyVolAccessEntry st c j with
    | .error st' => .error st'
    | .ok st' => applyVolEntries rest st'

/-- Embeds `ChannelConfig::readChannelVolatileData` (lines 705-772): read the
volatile file (absent file: return `-EIO` without throwing; unparsable
file: throw), apply every entry, then cache the file's timestamp. -/
def readChannelVolatileData (st0 : State) : Except State (Int × State) :=
  let st := bumpRead st0
  match st.fs.volFile with
  | none => .ok (-5, st)
  | some .corrupt => .error st
  | some (.entries l) =>
    match applyVolEntries l st with
    | .error st' => .error st'
    | .ok st' => .ok (0, { st' with voltFileLastUpdatedTime := statVol st'.fs })

/-- Processing of one entry of the non-volatile access file (loop body of
`readChannelPersistData`, lines 789-824); mirror of
`applyVolAccessEntry`. -/
def applyNvAccessEntry (st : State) (chNum : Nat) (j : AccessJson) :
    Except State State :=
  if chNum > maxIpmiChannels then .error st
  else
    match convertToAccessModeIndex j.accessMode with
    | .error _ => .error st
    | .ok am =>
      let st1 := updNonVolatile st chNum (fun a =>
        { a with accessMode := am, userAuthDisabled := j.userAuthDisabled,
                 perMsgAuthDisabled := j.perMsgAuthDisabled,
                 alertingDisabled := j.alertingDisabled })
      match convertToPrivLimitIndex j.privLimit with
      | .error _ => .error st1
      | .ok pl => .ok (updNonVolatile st1 chNum (fun a => { a with privLimit := pl }))

/-- The entry loop of `readChannelPersistData`. -/
def applyNvEntries : List (Nat × AccessJson) → State → Except State State
  | [], st => .ok st
  | (c, j) :: rest, st =>
    match applyNvAccessEntry st c j with
    | .error st' => .error st'
    | .ok st' => applyNvEntries rest st'

/-- Embeds `ChannelConfig::readChannelPersistData` (lines 774-840). -/
def readChannelPersistData (st0 : State) : Except State (Int × State) :=
  let st := bumpRead st0
  match st.fs.nvFile with
  | none => .ok (-5, st)
  | some .corrupt => .error st
  | some (.entries l) =>
    match applyNvEntries l st with
    | .error st' => .error st'
    | .ok st' => .ok (0, { st' with nvFileLastUpdatedTime := statNv st'.fs })

/-! ## Access-layer serialization (writeChannelVolatileData /
writeChannelPersistData, channel_mgmt.cpp lines 842-940) -/

/-- The serialization loop shared (up to the selected layer `getA`) by the
two write functions: for each channel with session support other than
`none`, convert access mode and privilege limit back to strings (either
conversion throwing `invalid_argument` on an out-of-enumeration code) and
emit the five-field JSON entry. -/
def serializeChList (getA : ChannelData → ChannelAccess) (arr : List ChannelData) :
    List Nat → Except ConvErr (List (Nat × AccessJson))
  | [] => .ok []
  | c :: rest =>
    match arr[c]? with
    | none => serializeChList getA arr rest
    | some cd =>
      if cd.chInfo.sessionSupported ≠ sessionNone then
        match convertToAccessModeString (getA cd).accessMode with
        | .error e => .error e
        | .ok ams =>
          match convertToPrivLimitString (getA cd).privLimit with
          | .error e => .error e
          | .ok ps =>
            match serializeChList getA arr rest with
            | .error e => .error e
            | .ok tl =>
              .ok ((c, { accessMode := ams,
                         userAuthDisabled := (getA cd).userAuthDisabled,
                         perMsgAuthDisabled := (getA cd).perMsgAuthDisabled,
                         alertingDisabled := (getA cd).alertingDisabled,
                         privLimit := ps }) :: tl)
      else serializeChList getA arr rest

/-- Embeds `ChannelConfig::writeChannelVolatileData` (lines 842-889): serialize all
session-supporting channels (a conversion failure returns `-EINVAL` with
nothing written), write the file, then cache its fresh timestamp. -/
def writeChannelVolatileData (st : State) : Int × State :=
  match serializeChList (fun cd => cd.chAccess.chVolatileData) st.channelData
      (List.range maxIpmiChannels) with
  | .error _ => (-22, st)
  | .ok out =>
    let fs1 := { st.fs with
                 volFile := some (.entries out)
                 volTime := st.fs.clock
                 clock := st.fs.clock + 1 }
    (0, { st with fs := fs1, voltFileLastUpdatedTime := statVol fs1 })

/-- Embeds `ChannelConfig::writeChannelPersistData` (lines 891-940). -/
def writeChannelPersistData (st : State) : Int × State :=
  match serializeChList (fun cd => cd.chAccess.chNonVolatileData) st.channelData
      (List.range maxIpmiChannels) with
  | .error _ => (-22, st)
  | .ok out =>
    let fs1 := { st.fs with
                 nvFile := some (.entries out)
                 nvTime := st.fs.clock
                 clock := st.fs.clock + 1 }
    (0, { st with fs := fs1, nvFileLastUpdatedTime := statNv fs1 })

/-! ## Staleness checks (channel_mgmt.cpp lines 942-980) -/

/-- Embeds `ChannelConfig::checkAndReloadNVData` (lines 942-960): reload when the
file's timestamp differs from the cached one or the `stat` failed; an
exception from the reload is caught and turned into `-EIO`. -/
def checkAndReloadNVData (st : State) : Int × State :=
  let updateTime := statNv st.fs
  if updateTime ≠ st.nvFileLastUpdatedTime ∨ updateTime = -5 then
    match readChannelPersistData st with
    | .ok (r, st') => (r, st')
    | .error st' => (-5, st')
  else (0, st)

/-- Embeds `ChannelConfig::checkAndReloadVolatileData` (lines 962-980). -/
def checkAndReloadVolatileData (st : State) : Int × State :=
  let updateTime := statVol st.fs
  if updateTime ≠ st.voltFileLastUpdatedTime ∨ updateTime = -5 then
    match readChannelVolatileData st with
    | .ok (r, st') => (r, st')
    | .error st' => (-5, st')
  else (0, st)

/-! ## Registry accessors (channel_mgmt.cpp lines 153-453)

An accessor result of `none` models an out-of-bounds read of
`channelData` — undefined behaviour in the C++. -/

/-- Embeds `ChannelConfig::isValidChannel` (lines 153-168).  The bounds check is
`chNum > maxIpmiChannels` exactly as written in the source (line 155), so
`chNum = maxIpmiChannels` passes it and the subsequent
`channelData[chNum].isChValid` read (line 161) is out of bounds, modelled
as `none`. -/
def isValidChannel (arr : List ChannelData) (chNum : Nat) : Option Bool :=
  if chNum > maxIpmiChannels then some false
  else
    match arr[chNum]? with
    | none => none
    | some cd => some cd.isChValid

/-- Embeds `ChannelConfig::getChannelSessionSupport` (lines 170-176): direct field
read; out of bounds is `none`. -/
def getChannelSessionSupport (arr : List ChannelData) (chNum : Nat) : Option Nat :=
  (arr[chNum]?).map (fun cd => cd.chInfo.sessionSupported)

/-- Embeds `ChannelConfig::getChannelInfo` (lines 207-221): returns the completion
code, the out-parameter copy of the capability block (filled only on
success) and the resulting state (always unchanged). -/
def getChannelInfo (st : State) (chNum : Nat) :
    Option (Nat × Option ChannelInfo × State) :=
  match isValidChannel st.channelData chNum with
  | none => none
  | some false => some (IPMI_CC_INVALID_FIELD_REQUEST, none, st)
  | some true =>
    match st.channelData[chNum]? with
    | none => none
    | some cd => some (IPMI_CC_OK, some cd.chInfo, st)

/-- Embeds `ChannelConfig::getChannelAccessData` (lines 223-249): validate channel
and session support, run the staleness check, then copy the volatile
record. -/
def getChannelAccessData (st : State) (chNum : Nat) :
    Option (Nat × Option ChannelAccess × State) :=
  match isValidChannel st.channelData chNum with
  | none => none
  | some false => some (IPMI_CC_INVALID_FIELD_REQUEST, none, st)
  | some true =>
    match getChannelSessionSupport st.channelData chNum with
    | none => none
    | some ss =>
      if ss = sessionNone then
        some (IPMI_CC_ACTION_NOT_SUPPORTED_FOR_CHANNEL, none, st)
      else
        match checkAndReloadVolatileData st with
        | (r, st1) =>
          if r ≠ 0 then some (IPMI_CC_UNSPECIFIED_ERROR, none, st1)
          else
            match st1.channelData[chNum]? with
            | none => none
            | some cd => some (IPMI_CC_OK, some cd.chAccess.chVolatileData, st1)

/-- The five guarded field assignments of `setChannelAccessData`
(lines 283-307): each field of the volatile record is overwritten exactly
when its `setFlag` bit is set. -/
def applyMaskVolatile (st1 : State) (chNum : Nat) (chAccessData : ChannelAccess)
    (setFlag : Nat) : State :=
  let st2 := if setFlag &&& setAccessMode ≠ 0 then
    updVolatile st1 chNum (fun a =>
      { a with accessMode := chAccessData.accessMode }) else st1
  let st3 := if setFlag &&& setUserAuthEnabled ≠ 0 then
    updVolatile st2 chNum (fun a =>
      { a with userAuthDisabled := chAccessData.userAuthDisabled }) else st2
  let st4 := if setFlag &&& setMsgAuthEnabled ≠ 0 then
    updVolatile st3 chNum (fun a =>
      { a with perMsgAuthDisabled := chAccessData.perMsgAuthDisabled }) else st3
  let st5 := if setFlag &&& setAlertingEnabled ≠ 0 then
    updVolatile st4 chNum (fun a =>
      { a with alertingDisabled := chAccessData.alertingDisabled }) else st4
  if setFlag &&& setPrivLimit ≠ 0 then
    updVolatile st5 chNum (fun a =>
      { a with privLimit := chAccessData.privLimit }) else st5

/-- The five guarded field assignments of `setChannelAccessPersistData`
(lines 378-402). -/
def applyMaskNonVolatile (st1 : State) (chNum : Nat) (chAccessData : ChannelAccess)
    (setFlag : Nat) : State :=
  let st2 := if setFlag &&& setAccessMode ≠ 0 then
    updNonVolatile st1 chNum (fun a =>
      { a with accessMode := chAccessData.accessMode }) else st1
  let st3 := if setFlag &&& setUserAuthEnabled ≠ 0 then
    updNonVolatile st2 chNum (fun a =>
      { a with userAuthDisabled := chAccessData.userAuthDisabled }) else st2
  let st4 := if setFlag &&& setMsgAuthEnabled ≠ 0 then
    updNonVolatile st3 chNum (fun a =>
      { a with perMsgAuthDisabled := chAccessData.perMsgAuthDisabled }) else st3
  let st5 := if setFlag &&& setAlertingEnabled ≠ 0 then
    updNonVolatile st4 chNum (fun a =>
      { a with alertingDisabled := chAccessData.alertingDisabled }) else st4
  if setFlag &&& setPrivLimit ≠ 0 then
    updNonVolatile st5 chNum (fun a =>
      { a with privLimit := chAccessData.privLimit }) else st5

/-- Embeds `ChannelConfig::setChannelAccessData` (lines 251-316): validate channel,
session support and (when its mask bit is set) the access mode; reload if
stale; apply exactly the mask-selected fields; serialize the volatile layer
back to its file. -/
def setChannelAccessData (st : State) (chNum : Nat) (chAccessData : ChannelAccess)
    (setFlag : Nat) : Option (Nat × State) :=
  match isValidChannel st.channelData chNum with
  | none => none
  | some false => some (IPMI_CC_INVALID_FIELD_REQUEST, st)
  | some true =>
    match getChannelSessionSupport st.channelData chNum with
    | none => none
    | some ss =>
      if ss = sessionNone then
        some (IPMI_CC_ACTION_NOT_SUPPORTED_FOR_CHANNEL, st)
      else if setFlag &&& setAccessMode ≠ 0 ∧
          isValidAccessMode chAccessData.accessMode = false then
        some (IPMI_CC_INVALID_FIELD_REQUEST, st)
      else
        match checkAndReloadVolatileData st with
        | (r, st1) =>
          if r ≠ 0 then some (IPMI_CC_UNSPECIFIED_ERROR, st1)
          else
            match writeChannelVolatileData
                (applyMaskVolatile st1 chNum chAccessData setFlag) with
            | (w, st7) =>
              if w ≠ 0 then some (IPMI_CC_UNSPECIFIED_ERROR, st7)
              else some (IPMI_CC_OK, st7)

/-- Embeds `ChannelConfig::getChannelAccessPersistData` (lines 318-345). -/
def getChannelAccessPersistData (st : State) (chNum : Nat) :
    Option (Nat × Option ChannelAccess × State) :=
  match isValidChannel st.channelData chNum with
  | none => none
  | some false => some (IPMI_CC_INVALID_FIELD_REQUEST, none, st)
  | some true =>
    match getChannelSessionSupport st.channelData chNum with
    | none => none
    | some ss =>
      if ss = sessionNone then
        some (IPMI_CC_ACTION_NOT_SUPPORTED_FOR_CHANNEL, none, st)
      else
        match checkAndReloadNVData st with
        | (r, st1) =>
          if r ≠ 0 then some (IPMI_CC_UNSPECIFIED_ERROR, none, st1)
          else
            match st1.channelData[chNum]? with
            | none => none
            | some cd => some (IPMI_CC_OK, some cd.chAccess.chNonVolatileData, st1)

/-- Embeds `ChannelConfig::setChannelAccessPersistData` (lines 347-411). -/
def setChannelAccessPersistData (st : State) (chNum : Nat)
    (chAccessData : ChannelAccess) (setFlag : Nat) : Option (Nat × State) :=
  match isValidChannel st.channelData chNum with
  | none => none
  | some false => some (IPMI_CC_INVALID_FIELD_REQUEST, st)
  | some true =>
    match getChannelSessionSupport st.channelData chNum with
    | none => none
    | some ss =>
      if ss = sessionNone then
        some (IPMI_CC_ACTION_NOT_SUPPORTED_FOR_CHANNEL, st)
      else if setFlag &&& setAccessMode ≠ 0 ∧
          isValidAccessMode chAccessData.accessMode = false then
        some (IPMI_CC_INVALID_FIELD_REQUEST, st)
      else
        match checkAndReloadNVData st with
        | (r, st1) =>
          if r ≠ 0 then some (IPMI_CC_UNSPECIFIED_ERROR, st1)
          else
            match writeChannelPersistData
                (applyMaskNonVolatile st1 chNum chAccessData setFlag) with
            | (w, st7) =>
              if w ≠ 0 then some (IPMI_CC_UNSPECIFIED_ERROR, st7)
              else some (IPMI_CC_OK, st7)

/-- Embeds `ChannelConfig::getChannelAuthTypeSupported` (lines 413-425). -/
def getChannelAuthTypeSupported (st : State) (chNum : Nat) :
    Option (Nat × Option Nat × State) :=
  match isValidChannel st.channelData chNum with
  | none => none
  | some false => some (IPMI_CC_INVALID_FIELD_REQUEST, none, st)
  | some true =>
    match st.channelData[chNum]? with
    | none => none
    | some cd => some (IPMI_CC_OK, some cd.chInfo.authTypeSupported, st)

/-- Embeds `ChannelConfig::getChannelEnabledAuthType` (lines 427-453): note that a
session-less channel is rejected here with `IPMI_CC_INVALID_FIELD_REQUEST`
(line 440), not with the NotSupported code. -/
def getChannelEnabledAuthType (st : State) (chNum : Nat) (priv : Nat) :
    Option (Nat × Option Nat × State) :=
  match isValidChannel st.channelData chNum with
  | none => none
  | some false => some (IPMI_CC_INVALID_FIELD_REQUEST, none, st)
  | some true =>
    match getChannelSessionSupport st.channelData chNum with
    | none => none
    | some ss =>
      if ss = sessionNone then
        some (IPMI_CC_INVALID_FIELD_REQUEST, none, st)
      else if isValidPrivLimit priv = false then
        some (IPMI_CC_INVALID_FIELD_REQUEST, none, st)
      else
        some (IPMI_CC_OK, some defaultAuthType, st)

/-! ## Static config loader (loadChannelConfig, channel_mgmt.cpp
lines 604-703) -/

/-- Embeds `ChannelConfig::setDefaultChannelConfig` (lines 604-617). -/
def setDefaultChannelConfig (st : State) (chNum : Nat) (chName : String) : State :=
  { st with channelData := modifyCh st.channelData chNum (fun cd =>
      { cd with chName := chName, chID := chNum, isChValid := false,
                activeSessCount := 0,
                chInfo := { mediumType := defaultMediumType,
                            protocolType := defaultProtocolType,
                            sessionSupported := defaultSessionSupported,
                            isIpmi := defaultIsIpmiState,
                            authTypeSupported := defaultAuthType } }) }

/-- Key lookup in the static config JSON object (`data[chKey]`). -/
def lookupCfg (cfg : List (Nat × ChanCfgJson)) (chNum : Nat) : Option ChanCfgJson :=
  (cfg.find? (fun p => p.1 == chNum)).map (fun p => p.2)

/-- One iteration of the `loadChannelConfig` channel loop (lines 634-688):
zero the slot, then either install the reserved default (key absent) or
parse the entry, converting the three capability strings and forcing
`authTypeSupported` to the default (line 685) regardless of file content.
A converter failure or missing `channel_info` yields `-EBADMSG` with the
assignments made so far kept. -/
def loadChannelStep (cfg : List (Nat × ChanCfgJson)) (st : State) (chNum : Nat) :
    Int × State :=
  let st := { st with channelData := st.channelData.set chNum zeroChannelData }
  match lookupCfg cfg chNum with
  | none => (0, setDefaultChannelConfig st chNum defaultChannelName)
  | some j =>
    let st := { st with channelData := modifyCh st.channelData chNum (fun cd =>
      { cd with chName := j.name, chID := chNum, isChValid := j.isValid,
                activeSessCount := j.activeSessions.getD 0 }) }
    match j.chInfo with
    | none => (-74, st)
    | some info =>
      match convertToMediumTypeIndex info.mediumType with
      | .error _ => (-74, st)
      | .ok mt =>
        let st := { st with channelData := modifyCh st.channelData chNum (fun cd =>
          { cd with chInfo := { cd.chInfo with mediumType := mt } }) }
        match convertToProtocolTypeIndex info.protocolType with
        | .error _ => (-74, st)
        | .ok pt =>
          let st := { st with channelData := modifyCh st.channelData chNum (fun cd =>
            { cd with chInfo := { cd.chInfo with protocolType := pt } }) }
          match convertToSessionSupportIndex info.sessionSupported with
          | .error _ => (-74, st)
          | .ok ssup =>
            (0, { st with channelData := modifyCh st.channelData chNum (fun cd =>
              { cd with chInfo := { cd.chInfo with
                  sessionSupported := ssup, isIpmi := info.isIpmi,
                  authTypeSupported := defaultAuthType } }) })

/-- The channel loop of `loadChannelConfig`, over channel numbers
`0 .. maxIpmiChannels - 1`, stopping at the first failure. -/
def loadChannelLoop (cfg : List (Nat × ChanCfgJson)) :
    List Nat → State → Int × State
  | [], st => (0, st)
  | c :: rest, st =>
    match loadChannelStep cfg st c with
    | (r, st') => if r = 0 then loadChannelLoop cfg rest st' else (r, st')

/-- Embeds `ChannelConfig::loadChannelConfig` (lines 619-703). -/
def loadChannelConfig (st0 : State) : Int × State :=
  let st := bumpRead st0
  match st.fs.configFile with
  | none => (-5, st)
  | some cfg => loadChannelLoop cfg (List.range maxIpmiChannels) st

/-! ## Bootstrap (initChannelPersistData, channel_mgmt.cpp lines 982-1025) -/

/-- Effect of `fs::copy_file(channelAccessDefaultFilename,
channelNvDataFilename)` (line 995): the non-volatile file receives the
default file's content with a fresh modification time. -/
def copyDefaultToNv (st2 : State) (content : JsonFile) : State :=
  { st2 with fs := { st2.fs with
      nvFile := some content
      nvTime := st2.fs.clock
      clock := st2.fs.clock + 1 } }

/-- Effect of `fs::copy_file(channelNvDataFilename,
channelVolatileDataFilename)` (line 1013). -/
def copyNvToVol (st6 : State) (content : JsonFile) : State :=
  { st6 with fs := { st6.fs with
      volFile := some content
      volTime := st6.fs.clock
      clock := st6.fs.clock + 1 } }

/-- Embeds `ChannelConfig::initChannelPersistData` (lines 982-1025): load the
static config (failure is fatal), then establish the non-volatile layer —
a read that *returns* nonzero (file absent) triggers one
`fs::copy_file(default, nv)` and one retry, while a read that *throws*
(present but unparsable file) propagates uncaught; then establish the
volatile layer the same way, seeding from the just-established
non-volatile file.  `fs::copy_file` itself throws when the source is
absent or the destination already exists.  `.error` is an aborted
initialization. -/
def initChannelPersistData (st : State) : Except State State :=
  match loadChannelConfig st with
  | (r, st1) =>
    if r ≠ 0 then .error st1
    else
      let afterNv : Except State State :=
        match readChannelPersistData st1 with
        | .error st2 => .error st2
        | .ok (r2, st2) =>
          if r2 = 0 then .ok st2
          else
            if st2.fs.nvFile.isSome then .error st2
            else
              match st2.fs.defaultAccessFile with
              | none => .error st2
              | some content =>
                match readChannelPersistData (copyDefaultToNv st2 content) with
                | .error st4 => .error st4
                | .ok (r3, st4) => if r3 ≠ 0 then .error st4 else .ok st4
      match afterNv with
      | .error s => .error s
      | .ok st5 =>
        match readChannelVolatileData st5 with
        | .error st6 => .error st6
        | .ok (r4, st6) =>
          if r4 = 0 then .ok st6
          else
            if st6.fs.volFile.isSome then .error st6
            else
              match st6.fs.nvFile with
              | none => .error st6
              | some content =>
                match readChannelVolatileData (copyNvToVol st6 content) with
                | .error st8 => .error st8
                | .ok (r5, st8) => if r5 ≠ 0 then .error st8 else .ok st8

/-- The field-masked merge of a new access record into an old one: the
fields whose mask bit is set come from `nd`, the others from `old`.  This
is the specification-side description of the five conditional assignments
in the two `setChannelAccess...Data` functions. -/
def mergeMask (old nd : ChannelAccess) (m : Nat) : ChannelAccess :=
  { accessMode := if m &&& setAccessMode ≠ 0 then nd.accessMode else old.accessMode
    userAuthDisabled := if m &&& setUserAuthEnabled ≠ 0 then nd.userAuthDisabled
      else old.userAuthDisabled
    perMsgAuthDisabled := if m &&& setMsgAuthEnabled ≠ 0 then nd.perMsgAuthDisabled
      else old.perMsgAuthDisabled
    alertingDisabled := if m &&& setAlertingEnabled ≠ 0 then nd.alertingDisabled
      else old.alertingDisabled
    privLimit := if m &&& setPrivLimit ≠ 0 then nd.privLimit else old.privLimit }

/-! ## Concrete states for witnesses -/

/-- A default (reserved) slot as the loader produces it. -/
def cdReserved : ChannelData :=
  { chName := defaultChannelName, chID := 0, isChValid := false,
    activeSessCount := 0,
    chInfo := { mediumType := defaultMediumType, protocolType := defaultProtocolType,
                sessionSupported := defaultSessionSupported,
                isIpmi := defaultIsIpmiState, authTypeSupported := defaultAuthType },
    chAccess := { chVolatileData := zeroAccess, chNonVolatileData := zeroAccess } }

/-- A LAN channel: valid, multi-session, access mode `always_available`,
privilege `priv-user` on both layers (the spec §8 example scenario). -/
def cdLan : ChannelData :=
  { chName := "LAN1", chID := 1, isChValid := true, activeSessCount := 0,
    chInfo := { mediumType := 4, protocolType := 1, sessionSupported := 2,
                isIpmi := true, authTypeSupported := 0 },
    chAccess :=
      { chVolatileData :=
          { accessMode := 2
            userAuthDisabled := false
            perMsgAuthDisabled := false
            alertingDisabled := false
            privLimit := 2 }
        chNonVolatileData :=
          { accessMode := 2
            userAuthDisabled := false
            perMsgAuthDisabled := false
            alertingDisabled := false
            privLimit := 2 } } }

/-- Registry with channel 1 = `cdLan` and every other slot reserved. -/
def regLan : List ChannelData :=
  (List.replicate maxIpmiChannels cdReserved).set 1 cdLan

/-- The access-file entry matching `cdLan`'s records. -/
def jsonLan : AccessJson :=
  { accessMode := "always_available", userAuthDisabled := false,
    perMsgAuthDisabled := false, alertingDisabled := false,
    privLimit := "priv-user" }

/-- A base state whose caches agree with both files (no pending external
modification). -/
def stBase : State :=
  { channelData := regLan
    voltFileLastUpdatedTime := 11
    nvFileLastUpdatedTime := 10
    fs := { configFile := some []
            defaultAccessFile := some (.entries [(1, jsonLan)])
            nvFile := some (.entries [(1, jsonLan)])
            nvTime := 10
            volFile := some (.entries [(1, jsonLan)])
            volTime := 11
            clock := 20
            readCount := 0 } }

/-- The state a successful volatile masked write leaves behind (`none`
collapses to the input, which no witness exercises). -/
def setVolResult (st : State) (ch : Nat) (nd : ChannelAccess) (m : Nat) : State :=
  match setChannelAccessData st ch nd m with
  | some (_, s) => s
  | none => st

/-- The state a successful non-volatile masked write leaves behind. -/
def setNvResult (st : State) (ch : Nat) (nd : ChannelAccess) (m : Nat) : State :=
  match setChannelAccessPersistData st ch nd m with
  | some (_, s) => s
  | none => st

/-- A new access record used by witnesses: `pre-boot`, both auth toggles
set, privilege `priv-admin`. -/
def ndDemo : ChannelAccess :=
  { accessMode := 1, userAuthDisabled := true, perMsgAuthDisabled := true,
    alertingDisabled := false, privLimit := 4 }

/-- An externally rewritten volatile-file entry: `disabled` /
`priv-admin`. -/
def jsonLanNew : AccessJson :=
  { accessMode := "disabled", userAuthDisabled := true,
    perMsgAuthDisabled := false, alertingDisabled := true,
    privLimit := "priv-admin" }

/-- Embeds `stBase` after an external rewrite of the volatile file (new content,
new timestamp, cache now stale). -/
def stStale : State :=
  { stBase with fs := { stBase.fs with
      volFile := some (.entries [(1, jsonLanNew)])
      volTime := 12 } }

/-- An access-file entry with an unrecognized access-mode token. -/
def jsonBad : AccessJson :=
  { accessMode := "bogus-mode", userAuthDisabled := false,
    perMsgAuthDisabled := false, alertingDisabled := false,
    privLimit := "priv-user" }

/-- Embeds `stBase` after an external rewrite of the volatile file whose second
entry fails validation (for the partial-reload claim). -/
def stPartial : State :=
  { stBase with fs := { stBase.fs with
      volFile := some (.entries [(1, jsonLanNew), (2, jsonBad)])
      volTime := 13 } }

/-- A static-config entry for a LAN channel, including
authentication-type content that the loader must ignore. -/
def cfgLan : ChanCfgJson :=
  { name := "LAN1", isValid := true, activeSessions := some 0,
    chInfo := some { mediumType := "lan-802.3", protocolType := "ipmb-1.0",
                     sessionSupported := "multi-session", isIpmi := true,
                     authTypeSupported := some "md5" } }

/-- A fresh-boot state: no non-volatile and no volatile file, a valid
static config and a valid shipped default access file. -/
def stBoot : State :=
  { channelData := List.replicate maxIpmiChannels zeroChannelData
    voltFileLastUpdatedTime := 0
    nvFileLastUpdatedTime := 0
    fs := { configFile := some [(1, cfgLan)]
            defaultAccessFile := some (.entries [(1, jsonLan)])
            nvFile := none
            nvTime := 0
            volFile := none
            volTime := 0
            clock := 5
            readCount := 0 } }

/-- Embeds `stBoot` with a present-but-unparsable non-volatile file. -/
def stBootCorrupt : State :=
  { stBoot with fs := { stBoot.fs with nvFile := some .corrupt, nvTime := 3 } }

/-- A valid (`isChValid = true`) channel whose session-support class is
`none` (e.g. a system interface). -/
def cdSysIf : ChannelData :=
  { chName := "SYS", chID := 2, isChValid := true, activeSessCount := 0,
    chInfo := { mediumType := 12, protocolType := 5, sessionSupported := 0,
                isIpmi := true, authTypeSupported := 0 },
    chAccess := { chVolatileData := zeroAccess, chNonVolatileData := zeroAccess } }

/-- Embeds `stBase` with channel 2 a valid session-less channel. -/
def stSysIf : State :=
  { stBase with channelData := regLan.set 2 cdSysIf }

/-- A record carrying an out-of-enumeration access mode. -/
def ndBadMode : ChannelAccess :=
  { accessMode := 9, userAuthDisabled := false, perMsgAuthDisabled := false,
    alertingDisabled := false, privLimit := 2 }

/-- A record carrying an out-of-enumeration privilege limit. -/
def ndBadPriv : ChannelAccess :=
  { accessMode := 1, userAuthDisabled := false, perMsgAuthDisabled := false,
    alertingDisabled := false, privLimit := 9 }

/-- Schema validity of an access file's entries: every channel key passes
the reader's bounds check and both string fields are recognized tokens —
exactly the conditions under which the entry loop cannot throw. -/
def accessEntriesValid (l : List (Nat × AccessJson)) : Bool :=
  l.all (fun e => decide (e.1 ≤ maxIpmiChannels) &&
    (match convertToAccessModeIndex e.2.accessMode with
     | .ok _ => true
     | .error _ => false) &&
    (match convertToPrivLimitIndex e.2.privLimit with
     | .ok _ => true
     | .error _ => false))

/-- The state a successful `initChannelPersistData` produces (`none` when
initialization aborts). -/
def initResult (st : State) : Option State :=
  match initChannelPersistData st with
  | .ok s => some s
  | .error _ => none

/-! ## Helper lemmas -/

theorem modifyCh_getElem?_self (l : List ChannelData) (i : Nat)
    (f : ChannelData → ChannelData) :
    (modifyCh l i f)[i]? = (l[i]?).map f := by
  unfold modifyCh
  cases h : l[i]? with
  | none => simp [h]
  | some v =>
    have hlt : i < l.length := by
      by_contra hge
      rw [List.getElem?_eq_none (by omega)] at h
      exact Option.noConfusion h
    simp [h, List.getElem?_set_self hlt]

theorem modifyCh_getElem?_ne (l : List ChannelData) (i j : Nat)
    (f : ChannelData → ChannelData) (h : i ≠ j) :
    (modifyCh l i f)[j]? = l[j]? := by
  unfold modifyCh
  cases hv : l[i]? with
  | none => rfl
  | some v => simp [List.getElem?_set_ne h]

theorem modifyCh_modify_same (l : List ChannelData) (i : Nat)
    (f g : ChannelData → ChannelData) :
    modifyCh (modifyCh l i f) i g = modifyCh l i (fun v => g (f v)) := by
  unfold modifyCh
  cases h : l[i]? with
  | none => simp [h]
  | some v =>
    have hlt : i < l.length := by
      by_contra hge
      rw [List.getElem?_eq_none (by omega)] at h
      exact Option.noConfusion h
    simp [h, List.getElem?_set_self hlt, List.set_set]

theorem modifyCh_self_eq (l : List ChannelData) (i : Nat) (v : ChannelData)
    (f : ChannelData → ChannelData) (hv : l[i]? = some v) (hf : f v = v) :
    modifyCh l i f = l := by
  have hlt : i < l.length := by
    by_contra hge
    rw [List.getElem?_eq_none (by omega)] at hv
    exact Option.noConfusion hv
  unfold modifyCh
  rw [hv]
  show l.set i (f v) = l
  rw [hf]
  apply List.ext_getElem?
  intro n
  rcases eq_or_ne n i with rfl | hne
  · simp [List.getElem?_set_self hlt, hv]
  · simp [List.getElem?_set_ne (Ne.symm hne)]

theorem updVolatile_updVolatile (st : State) (ch : Nat)
    (f g : ChannelAccess → ChannelAccess) :
    updVolatile (updVolatile st ch f) ch g =
      updVolatile st ch (fun a => g (f a)) := by
  unfold updVolatile
  simp [modifyCh_modify_same]

theorem updNonVolatile_updNonVolatile (st : State) (ch : Nat)
    (f g : ChannelAccess → ChannelAccess) :
    updNonVolatile (updNonVolatile st ch f) ch g =
      updNonVolatile st ch (fun a => g (f a)) := by
  unfold updNonVolatile
  simp [modifyCh_modify_same]

theorem statVol_nonneg_of_isSome (fs : FS) (h : fs.volFile.isSome) :
    statVol fs = (fs.volTime : Int) := by
  unfold statVol
  cases hv : fs.volFile with
  | none => rw [hv] at h; exact absurd h (by simp)
  | some f => rfl

theorem checkAndReloadVolatileData_fresh (st : State)
    (hsome : st.fs.volFile.isSome)
    (hfresh : statVol st.fs = st.voltFileLastUpdatedTime) :
    checkAndReloadVolatileData st = (0, st) := by
  unfold checkAndReloadVolatileData
  rw [if_neg]
  push_neg
  refine ⟨by rw [hfresh], ?_⟩
  rw [statVol_nonneg_of_isSome st.fs hsome]
  omega

theorem checkAndReloadNVData_fresh (st : State)
    (hsome : st.fs.nvFile.isSome)
    (hfresh : statNv st.fs = st.nvFileLastUpdatedTime) :
    checkAndReloadNVData st = (0, st) := by
  unfold checkAndReloadNVData
  rw [if_neg]
  push_neg
  constructor
  · rw [hfresh]
  · cases hv : st.fs.nvFile with
    | none => rw [hv] at hsome; exact absurd hsome (by simp)
    | some f => simp [statNv, hv]

theorem modifyCh_congr_id (l : List ChannelData) (i : Nat)
    (f : ChannelData → ChannelData) (hf : ∀ v, f v = v) : modifyCh l i f = l := by
  unfold modifyCh
  cases h : l[i]? with
  | none => rfl
  | some v =>
    have hlt : i < l.length := by
      by_contra hge
      rw [List.getElem?_eq_none (by omega)] at h
      exact Option.noConfusion h
    show l.set i (f v) = l
    rw [hf]
    apply List.ext_getElem?
    intro n
    rcases eq_or_ne n i with rfl | hne
    · simp [List.getElem?_set_self hlt, h]
    · simp [List.getElem?_set_ne (Ne.symm hne)]

theorem updVolatile_congr_id (st : State) (ch : Nat)
    (f : ChannelAccess → ChannelAccess) (hf : ∀ a, f a = a) :
    updVolatile st ch f = st := by
  unfold updVolatile
  rw [modifyCh_congr_id]
  · intro v
    rw [hf]

theorem updNonVolatile_congr_id (st : State) (ch : Nat)
    (f : ChannelAccess → ChannelAccess) (hf : ∀ a, f a = a) :
    updNonVolatile st ch f = st := by
  unfold updNonVolatile
  rw [modifyCh_congr_id]
  · intro v
    rw [hf]

theorem applyMaskVolatile_eq (st1 : State) (ch : Nat) (nd : ChannelAccess)
    (m : Nat) :
    applyMaskVolatile st1 ch nd m =
      updVolatile st1 ch (fun a => mergeMask a nd m) := by
  unfold applyMaskVolatile mergeMask
  by_cases h1 : m &&& setAccessMode ≠ 0 <;>
    by_cases h2 : m &&& setUserAuthEnabled ≠ 0 <;>
      by_cases h3 : m &&& setMsgAuthEnabled ≠ 0 <;>
        by_cases h4 : m &&& setAlertingEnabled ≠ 0 <;>
          by_cases h5 : m &&& setPrivLimit ≠ 0 <;>
            simp [h1, h2, h3, h4, h5, updVolatile_updVolatile] <;>
              first
                | rfl
                | (rw [updVolatile_congr_id]
                   intro a
                   rfl)

theorem applyMaskNonVolatile_eq (st1 : State) (ch : Nat) (nd : ChannelAccess)
    (m : Nat) :
    applyMaskNonVolatile st1 ch nd m =
      updNonVolatile st1 ch (fun a => mergeMask a nd m) := by
  unfold applyMaskNonVolatile mergeMask
  by_cases h1 : m &&& setAccessMode ≠ 0 <;>
    by_cases h2 : m &&& setUserAuthEnabled ≠ 0 <;>
      by_cases h3 : m &&& setMsgAuthEnabled ≠ 0 <;>
        by_cases h4 : m &&& setAlertingEnabled ≠ 0 <;>
          by_cases h5 : m &&& setPrivLimit ≠ 0 <;>
            simp [h1, h2, h3, h4, h5, updNonVolatile_updNonVolatile] <;>
              first
                | rfl
                | (rw [updNonVolatile_congr_id]
                   intro a
                   rfl)

theorem mergeMask_idem (old nd : ChannelAccess) (m : Nat) :
    mergeMask (mergeMask old nd m) nd m = mergeMask old nd m := by
  unfold mergeMask
  by_cases h1 : m &&& setAccessMode ≠ 0 <;>
    by_cases h2 : m &&& setUserAuthEnabled ≠ 0 <;>
      by_cases h3 : m &&& setMsgAuthEnabled ≠ 0 <;>
        by_cases h4 : m &&& setAlertingEnabled ≠ 0 <;>
          by_cases h5 : m &&& setPrivLimit ≠ 0 <;>
            simp [h1, h2, h3, h4, h5]

theorem serializeChList_ok_inrange (getA : ChannelData → ChannelAccess)
    (arr : List ChannelData) :
    ∀ idxs out, serializeChList getA arr idxs = .ok out →
      ∀ c ∈ idxs, ∀ cd, arr[c]? = some cd →
        cd.chInfo.sessionSupported ≠ sessionNone →
        (getA cd).accessMode < accessModeList.length ∧
          (getA cd).privLimit < privList.length := by
  intro idxs
  induction idxs with
  | nil => intro out h c hc; exact absurd hc (List.not_mem_nil c)
  | cons x rest ih =>
    intro out h c hc cd hcd hsess
    unfold serializeChList at h
    rcases List.mem_cons.mp hc with rfl | hmem
    · simp only [hcd] at h
      rw [if_pos hsess] at h
      cases ham : convertToAccessModeString (getA cd).accessMode with
      | error e => simp [ham] at h
      | ok ams =>
        simp only [ham] at h
        cases hpm : convertToPrivLimitString (getA cd).privLimit with
        | error e => simp [hpm] at h
        | ok ps =>
          constructor
          · by_contra hge
            unfold convertToAccessModeString at ham
            rw [if_pos (by omega)] at ham
            exact Except.noConfusion ham
          · by_contra hge
            unfold convertToPrivLimitString at hpm
            rw [if_pos (by omega)] at hpm
            exact Except.noConfusion hpm
    · cases harr : arr[x]? with
      | none =>
        simp only [harr] at h
        exact ih out h c hmem cd hcd hsess
      | some cdx =>
        simp only [harr] at h
        by_cases hsx : cdx.chInfo.sessionSupported ≠ sessionNone
        · rw [if_pos hsx] at h
          cases ham : convertToAccessModeString (getA cdx).accessMode with
          | error e => simp [ham] at h
          | ok ams =>
            simp only [ham] at h
            cases hpm : convertToPrivLimitString (getA cdx).privLimit with
            | error e => simp [hpm] at h
            | ok ps =>
              simp only [hpm] at h
              cases hrest : serializeChList getA arr rest with
              | error e => simp [hrest] at h
              | ok tl => exact ih tl hrest c hmem cd hcd hsess
        · rw [if_neg hsx] at h
          exact ih out h c hmem cd hcd hsess

theorem writeVol_of_serialize_ok (st : State)
    (out : List (Nat × AccessJson))
    (hs : serializeChList (fun cd => cd.chAccess.chVolatileData) st.channelData
      (List.range maxIpmiChannels) = .ok out) :
    writeChannelVolatileData st =
      (0, { st with
            fs := { st.fs with
                    volFile := some (.entries out)
                    volTime := st.fs.clock
                    clock := st.fs.clock + 1 }
            voltFileLastUpdatedTime := (st.fs.clock : Int) }) := by
  unfold writeChannelVolatileData
  rw [hs]
  rfl

theorem writeNv_of_serialize_ok (st : State)
    (out : List (Nat × AccessJson))
    (hs : serializeChList (fun cd => cd.chAccess.chNonVolatileData) st.channelData
      (List.range maxIpmiChannels) = .ok out) :
    writeChannelPersistData st =
      (0, { st with
            fs := { st.fs with
                    nvFile := some (.entries out)
                    nvTime := st.fs.clock
                    clock := st.fs.clock + 1 }
            nvFileLastUpdatedTime := (st.fs.clock : Int) }) := by
  unfold writeChannelPersistData
  rw [hs]
  rfl

theorem writeVol_ok_elim (st st' : State)
    (hw : writeChannelVolatileData st = (0, st')) :
    ∃ out, serializeChList (fun cd => cd.chAccess.chVolatileData) st.channelData
        (List.range maxIpmiChannels) = .ok out ∧
      st' = { st with
              fs := { st.fs with
                      volFile := some (.entries out)
                      volTime := st.fs.clock
                      clock := st.fs.clock + 1 }
              voltFileLastUpdatedTime := (st.fs.clock : Int) } := by
  unfold writeChannelVolatileData at hw
  cases hs : serializeChList (fun cd => cd.chAccess.chVolatileData) st.channelData
      (List.range maxIpmiChannels) with
  | error e => rw [hs] at hw; exact absurd hw (by simp)
  | ok out =>
    rw [hs] at hw
    refine ⟨out, rfl, ?_⟩
    have := congrArg Prod.snd hw
    simpa [statVol] using this.symm

theorem writeNv_ok_elim (st st' : State)
    (hw : writeChannelPersistData st = (0, st')) :
    ∃ out, serializeChList (fun cd => cd.chAccess.chNonVolatileData) st.channelData
        (List.range maxIpmiChannels) = .ok out ∧
      st' = { st with
              fs := { st.fs with
                      nvFile := some (.entries out)
                      nvTime := st.fs.clock
                      clock := st.fs.clock + 1 }
              nvFileLastUpdatedTime := (st.fs.clock : Int) } := by
  unfold writeChannelPersistData at hw
  cases hs : serializeChList (fun cd => cd.chAccess.chNonVolatileData) st.channelData
      (List.range maxIpmiChannels) with
  | error e => rw [hs] at hw; exact absurd hw (by simp)
  | ok out =>
    rw [hs] at hw
    refine ⟨out, rfl, ?_⟩
    have := congrArg Prod.snd hw
    simpa [statNv] using this.symm

theorem readVol_absent (st : State) (h : st.fs.volFile = none) :
    readChannelVolatileData st = .ok (-5, bumpRead st) := by
  have hb : (bumpRead st).fs.volFile = none := h
  unfold readChannelVolatileData
  simp only [hb]

theorem readNv_absent (st : State) (h : st.fs.nvFile = none) :
    readChannelPersistData st = .ok (-5, bumpRead st) := by
  have hb : (bumpRead st).fs.nvFile = none := h
  unfold readChannelPersistData
  simp only [hb]

theorem setVolatile_roundtrip (st : State) (ch : Nat) (cd : ChannelData)
    (nd : ChannelAccess) (m : Nat) (st' : State)
    (hcd : st.channelData[ch]? = some cd)
    (hfresh : statVol st.fs = st.voltFileLastUpdatedTime)
    (hset : setChannelAccessData st ch nd m = some (IPMI_CC_OK, st')) :
    getChannelAccessData st' ch =
      some (IPMI_CC_OK, some (mergeMask cd.chAccess.chVolatileData nd m), st') ∧
    ∃ st'', setChannelAccessData st' ch nd m = some (IPMI_CC_OK, st'') ∧
      st''.channelData = st'.channelData := by
  by_cases hch : ch > maxIpmiChannels
  · exfalso
    have hvf : isValidChannel st.channelData ch = some false := by
      unfold isValidChannel
      rw [if_pos hch]
    unfold setChannelAccessData at hset
    rw [hvf] at hset
    simp [IPMI_CC_INVALID_FIELD_REQUEST, IPMI_CC_OK] at hset
  · have hvf : isValidChannel st.channelData ch = some cd.isChValid := by
      unfold isValidChannel
      rw [if_neg hch, hcd]
    unfold setChannelAccessData at hset
    rw [hvf] at hset
    cases hb : cd.isChValid with
    | false =>
      rw [hb] at hset
      simp [IPMI_CC_INVALID_FIELD_REQUEST, IPMI_CC_OK] at hset
    | true =>
      rw [hb] at hset
      have hss : getChannelSessionSupport st.channelData ch =
          some cd.chInfo.sessionSupported := by
        unfold getChannelSessionSupport
        rw [hcd]
        rfl
      simp only [hss] at hset
      by_cases hs0 : cd.chInfo.sessionSupported = sessionNone
      · rw [if_pos hs0] at hset
        simp [IPMI_CC_ACTION_NOT_SUPPORTED_FOR_CHANNEL, IPMI_CC_OK] at hset
      · rw [if_neg hs0] at hset
        by_cases hg : m &&& setAccessMode ≠ 0 ∧ isValidAccessMode nd.accessMode = false
        · rw [if_pos hg] at hset
          simp [IPMI_CC_INVALID_FIELD_REQUEST, IPMI_CC_OK] at hset
        · rw [if_neg hg] at hset
          cases hvol : st.fs.volFile with
          | none =>
            exfalso
            have hrel : checkAndReloadVolatileData st = (-5, bumpRead st) := by
              unfold checkAndReloadVolatileData
              rw [if_pos (by right; unfold statVol; rw [hvol])]
              rw [readVol_absent st hvol]
            simp only [hrel] at hset
            simp [IPMI_CC_UNSPECIFIED_ERROR, IPMI_CC_OK] at hset
          | some f =>
            have hrel : checkAndReloadVolatileData st = (0, st) :=
              checkAndReloadVolatileData_fresh st (by rw [hvol]; rfl) hfresh
            simp only [hrel] at hset
            rw [applyMaskVolatile_eq] at hset
            cases hw : writeChannelVolatileData
                (updVolatile st ch (fun a => mergeMask a nd m)) with
            | mk w st7 =>
              simp only [hw] at hset
              by_cases hw0 : w ≠ 0
              · rw [if_pos hw0] at hset
                simp [IPMI_CC_UNSPECIFIED_ERROR, IPMI_CC_OK] at hset
              · rw [if_neg hw0] at hset
                have hw' : w = 0 := by omega
                rw [hw'] at hw
                have hst' : st' = st7 := by
                  have := Option.some.inj hset
                  exact (Prod.ext_iff.mp this).2.symm
                obtain ⟨out, hs, hst7⟩ := writeVol_ok_elim _ _ hw
                subst hst'
                have hch7 : st'.channelData =
                    (updVolatile st ch (fun a => mergeMask a nd m)).channelData := by
                  rw [hst7]
                have hBcd7 : st'.channelData[ch]? =
                    some { cd with chAccess := { cd.chAccess with
                      chVolatileData := mergeMask cd.chAccess.chVolatileData nd m } } := by
                  rw [hch7]
                  show (modifyCh st.channelData ch _)[ch]? = _
                  rw [modifyCh_getElem?_self, hcd]
                  rfl
                have hvalid2 : isValidChannel st'.channelData ch = some true := by
                  unfold isValidChannel
                  rw [if_neg hch, hBcd7]
                  simp [hb]
                have hss2 : getChannelSessionSupport st'.channelData ch =
                    some cd.chInfo.sessionSupported := by
                  unfold getChannelSessionSupport
                  rw [hBcd7]
                  rfl
                have hsome2 : st'.fs.volFile.isSome := by
                  rw [hst7]
                  rfl
                have hfresh2 : statVol st'.fs = st'.voltFileLastUpdatedTime := by
                  rw [hst7]
                  rfl
                have hrel2 : checkAndReloadVolatileData st' = (0, st') :=
                  checkAndReloadVolatileData_fresh st' hsome2 hfresh2
                have hs7 : serializeChList (fun cd => cd.chAccess.chVolatileData)
                    st'.channelData (List.range maxIpmiChannels) = .ok out := by
                  rw [hch7]
                  exact hs
                have happ : applyMaskVolatile st' ch nd m = st' := by
                  rw [applyMaskVolatile_eq]
                  unfold updVolatile
                  rw [modifyCh_self_eq st'.channelData ch _ _ hBcd7
                    (by simp [mergeMask_idem])]
                constructor
                · unfold getChannelAccessData
                  simp only [hvalid2, hss2, hrel2, hBcd7]
                  rw [if_neg hs0]
                  simp
                · refine ⟨{ st' with
                      fs := { st'.fs with
                              volFile := some (.entries out)
                              volTime := st'.fs.clock
                              clock := st'.fs.clock + 1 }
                      voltFileLastUpdatedTime := (st'.fs.clock : Int) }, ?_, rfl⟩
                  unfold setChannelAccessData
                  simp only [hvalid2, hss2, hrel2, happ]
                  rw [if_neg hs0, if_neg hg]
                  rw [writeVol_of_serialize_ok st' out hs7]
                  simp

theorem setNonVolatile_roundtrip (st : State) (ch : Nat) (cd : ChannelData)
    (nd : ChannelAccess) (m : Nat) (st' : State)
    (hcd : st.channelData[ch]? = some cd)
    (hfresh : statNv st.fs = st.nvFileLastUpdatedTime)
    (hset : setChannelAccessPersistData st ch nd m = some (IPMI_CC_OK, st')) :
    getChannelAccessPersistData st' ch =
      some (IPMI_CC_OK, some (mergeMask cd.chAccess.chNonVolatileData nd m), st') ∧
    ∃ st'', setChannelAccessPersistData st' ch nd m = some (IPMI_CC_OK, st'') ∧
      st''.channelData = st'.channelData := by
  by_cases hch : ch > maxIpmiChannels
  · exfalso
    have hvf : isValidChannel st.channelData ch = some false := by
      unfold isValidChannel
      rw [if_pos hch]
    unfold setChannelAccessPersistData at hset
    rw [hvf] at hset
    simp [IPMI_CC_INVALID_FIELD_REQUEST, IPMI_CC_OK] at hset
  · have hvf : isValidChannel st.channelData ch = some cd.isChValid := by
      unfold isValidChannel
      rw [if_neg hch, hcd]
    unfold setChannelAccessPersistData at hset
    rw [hvf] at hset
    cases hb : cd.isChValid with
    | false =>
      rw [hb] at hset
      simp [IPMI_CC_INVALID_FIELD_REQUEST, IPMI_CC_OK] at hset
    | true =>
      rw [hb] at hset
      have hss : getChannelSessionSupport st.channelData ch =
          some cd.chInfo.sessionSupported := by
        unfold getChannelSessionSupport
        rw [hcd]
        rfl
      simp only [hss] at hset
      by_cases hs0 : cd.chInfo.sessionSupported = sessionNone
      · rw [if_pos hs0] at hset
        simp [IPMI_CC_ACTION_NOT_SUPPORTED_FOR_CHANNEL, IPMI_CC_OK] at hset
      · rw [if_neg hs0] at hset
        by_cases hg : m &&& setAccessMode ≠ 0 ∧ isValidAccessMode nd.accessMode = false
        · rw [if_pos hg] at hset
          simp [IPMI_CC_INVALID_FIELD_REQUEST, IPMI_CC_OK] at hset
        · rw [if_neg hg] at hset
          cases hvol : st.fs.nvFile with
          | none =>
            exfalso
            have hrel : checkAndReloadNVData st = (-5, bumpRead st) := by
              unfold checkAndReloadNVData
              rw [if_pos (by right; unfold statNv; rw [hvol])]
              rw [readNv_absent st hvol]
            simp only [hrel] at hset
            simp [IPMI_CC_UNSPECIFIED_ERROR, IPMI_CC_OK] at hset
          | some f =>
            have hrel : checkAndReloadNVData st = (0, st) :=
              checkAndReloadNVData_fresh st (by rw [hvol]; rfl) hfresh
            simp only [hrel] at hset
            rw [applyMaskNonVolatile_eq] at hset
            cases hw : writeChannelPersistData
                (updNonVolatile st ch (fun a => mergeMask a nd m)) with
            | mk w st7 =>
              simp only [hw] at hset
              by_cases hw0 : w ≠ 0
              · rw [if_pos hw0] at hset
                simp [IPMI_CC_UNSPECIFIED_ERROR, IPMI_CC_OK] at hset
              · rw [if_neg hw0] at hset
                have hw' : w = 0 := by omega
                rw [hw'] at hw
                have hst' : st' = st7 := by
                  have := Option.some.inj hset
                  exact (Prod.ext_iff.mp this).2.symm
                obtain ⟨out, hs, hst7⟩ := writeNv_ok_elim _ _ hw
                subst hst'
                have hch7 : st'.channelData =
                    (updNonVolatile st ch (fun a => mergeMask a nd m)).channelData := by
                  rw [hst7]
                have hBcd7 : st'.channelData[ch]? =
                    some { cd with chAccess := { cd.chAccess with
                      chNonVolatileData := mergeMask cd.chAccess.chNonVolatileData nd m } } := by
                  rw [hch7]
                  show (modifyCh st.channelData ch _)[ch]? = _
                  rw [modifyCh_getElem?_self, hcd]
                  rfl
                have hvalid2 : isValidChannel st'.channelData ch = some true := by
                  unfold isValidChannel
                  rw [if_neg hch, hBcd7]
                  simp [hb]
                have hss2 : getChannelSessionSupport st'.channelData ch =
                    some cd.chInfo.sessionSupported := by
                  unfold getChannelSessionSupport
                  rw [hBcd7]
                  rfl
                have hsome2 : st'.fs.nvFile.isSome := by
                  rw [hst7]
                  rfl
                have hfresh2 : statNv st'.fs = st'.nvFileLastUpdatedTime := by
                  rw [hst7]
                  rfl
                have hrel2 : checkAndReloadNVData st' = (0, st') :=
                  checkAndReloadNVData_fresh st' hsome2 hfresh2
                have hs7 : serializeChList (fun cd => cd.chAccess.chNonVolatileData)
                    st'.channelData (List.range maxIpmiChannels) = .ok out := by
                  rw [hch7]
                  exact hs
                have happ : applyMaskNonVolatile st' ch nd m = st' := by
                  rw [applyMaskNonVolatile_eq]
                  unfold updNonVolatile
                  rw [modifyCh_self_eq st'.channelData ch _ _ hBcd7
                    (by simp [mergeMask_idem])]
                constructor
                · unfold getChannelAccessPersistData
                  simp only [hvalid2, hss2, hrel2, hBcd7]
                  rw [if_neg hs0]
                  simp
                · refine ⟨{ st' with
                      fs := { st'.fs with
                              nvFile := some (.entries out)
                              nvTime := st'.fs.clock
                              clock := st'.fs.clock + 1 }
                      nvFileLastUpdatedTime := (st'.fs.clock : Int) }, ?_, rfl⟩
                  unfold setChannelAccessPersistData
                  simp only [hvalid2, hss2, hrel2, happ]
                  rw [if_neg hs0, if_neg hg]
                  rw [writeNv_of_serialize_ok st' out hs7]
                  simp

/-- C2: For every valid channel with session support other than none,
every access record `nd` and every field mask `m`: after a successful
`setChannelAccessData(ch, nd, m)`, a `getChannelAccessData(ch)` with no
intervening external file modification returns exactly the masked merge
`mergeMask old nd m` — the fields selected by `m` equal `nd`'s, every other
field keeps its prior value — and repeating the identical masked write
succeeds and leaves the registry unchanged (idempotent).  The same holds
for the non-volatile pair `setChannelAccessPersistData` /
`getChannelAccessPersistData`.  The pre-write record is pinned by the
hypothesis that the layer's cache agrees with its file when the write
starts (no pending external modification). -/
theorem claim_C2 :
    (∀ st ch cd nd m st',
      st.channelData[ch]? = some cd →
      statVol st.fs = st.voltFileLastUpdatedTime →
      setChannelAccessData st ch nd m = some (IPMI_CC_OK, st') →
      getChannelAccessData st' ch =
        some (IPMI_CC_OK, some (mergeMask cd.chAccess.chVolatileData nd m), st') ∧
      ∃ st'', setChannelAccessData st' ch nd m = some (IPMI_CC_OK, st'') ∧
        st''.channelData = st'.channelData) ∧
    (∀ st ch cd nd m st',
      st.channelData[ch]? = some cd →
      statNv st.fs = st.nvFileLastUpdatedTime →
      setChannelAccessPersistData st ch nd m = some (IPMI_CC_OK, st') →
      getChannelAccessPersistData st' ch =
        some (IPMI_CC_OK, some (mergeMask cd.chAccess.chNonVolatileData nd m), st') ∧
      ∃ st'', setChannelAccessPersistData st' ch nd m = some (IPMI_CC_OK, st'') ∧
        st''.channelData = st'.channelData) := by
  constructor
  · intro st ch cd nd m st' hcd hfresh hset
    exact setVolatile_roundtrip st ch cd nd m st' hcd hfresh hset
  · intro st ch cd nd m st' hcd hfresh hset
    exact setNonVolatile_roundtrip st ch cd nd m st' hcd hfresh hset

/-- Witness for C2: the spec §8 example — on `stBase`, write all five fields
of `ndDemo` to channel 1's volatile layer and read them back. -/
theorem claim_C2_witness :
    getChannelAccessData (setVolResult stBase 1 ndDemo 31) 1 =
      some (IPMI_CC_OK,
        some (mergeMask cdLan.chAccess.chVolatileData ndDemo 31),
        setVolResult stBase 1 ndDemo 31) := by
  have h := claim_C2.1 stBase 1 cdLan ndDemo 31 (setVolResult stBase 1 ndDemo 31)
    rfl rfl rfl
  exact h.1

/-- C1 (code bug): the claim says every channel number outside
`[0, maxIpmiChannels)` gets `IPMI_CC_INVALID_FIELD_REQUEST` from every
accessor with no state access.  The source's bounds check
(`chNum > maxIpmiChannels`, line 155) lets `chNum = maxIpmiChannels`
through, so all seven accessors then read `channelData[maxIpmiChannels]`
out of bounds (modelled as `none` = undefined behaviour) instead of
rejecting it; for `chNum = maxIpmiChannels + 1` and beyond the claimed
behaviour does hold (here evaluated at 17 on the same state, with the state
returned unchanged). -/
theorem claim_C1 :
    isValidChannel stBase.channelData maxIpmiChannels = none ∧
    getChannelInfo stBase maxIpmiChannels = none ∧
    getChannelAccessData stBase maxIpmiChannels = none ∧
    setChannelAccessData stBase maxIpmiChannels ndDemo 31 = none ∧
    getChannelAccessPersistData stBase maxIpmiChannels = none ∧
    setChannelAccessPersistData stBase maxIpmiChannels ndDemo 31 = none ∧
    getChannelAuthTypeSupported stBase maxIpmiChannels = none ∧
    getChannelEnabledAuthType stBase maxIpmiChannels 4 = none ∧
    getChannelInfo stBase 17 = some (IPMI_CC_INVALID_FIELD_REQUEST, none, stBase) ∧
    getChannelAccessData stBase 17 =
      some (IPMI_CC_INVALID_FIELD_REQUEST, none, stBase) ∧
    setChannelAccessData stBase 17 ndDemo 31 =
      some (IPMI_CC_INVALID_FIELD_REQUEST, stBase) ∧
    getChannelAccessPersistData stBase 17 =
      some (IPMI_CC_INVALID_FIELD_REQUEST, none, stBase) ∧
    setChannelAccessPersistData stBase 17 ndDemo 31 =
      some (IPMI_CC_INVALID_FIELD_REQUEST, stBase) ∧
    getChannelAuthTypeSupported stBase 17 =
      some (IPMI_CC_INVALID_FIELD_REQUEST, none, stBase) ∧
    getChannelEnabledAuthType stBase 17 4 =
      some (IPMI_CC_INVALID_FIELD_REQUEST, none, stBase) :=
  ⟨rfl, rfl, rfl, rfl, rfl, rfl, rfl, rfl, rfl, rfl, rfl, rfl, rfl, rfl, rfl⟩

/-- Counterexample to C6 as stated: a channel whose session-support
class is none but whose `valid` flag is false (exactly the reserved default
slots) is rejected with `IPMI_CC_INVALID_FIELD_REQUEST`, not with the
NotSupported code: channel 0 of `stBase` is such a channel. -/
theorem claim_C6_cx :
    getChannelSessionSupport stBase.channelData 0 = some sessionNone ∧
    getChannelAccessData stBase 0 =
      some (IPMI_CC_INVALID_FIELD_REQUEST, none, stBase) ∧
    IPMI_CC_INVALID_FIELD_REQUEST ≠ IPMI_CC_ACTION_NOT_SUPPORTED_FOR_CHANNEL :=
  ⟨rfl, rfl, by decide⟩

/-- C6 (amended): for every *valid* (in-range, `isChValid`) channel
whose session-support class is none, each of the four access-layer
operations returns the NotSupported code
`IPMI_CC_ACTION_NOT_SUPPORTED_FOR_CHANNEL` (distinct from InvalidRequest)
and changes no state (the returned state is the input state). -/
theorem claim_C6 :
    ∀ st ch cd, ch ≤ maxIpmiChannels →
      st.channelData[ch]? = some cd →
      cd.isChValid = true →
      cd.chInfo.sessionSupported = sessionNone →
      getChannelAccessData st ch =
        some (IPMI_CC_ACTION_NOT_SUPPORTED_FOR_CHANNEL, none, st) ∧
      getChannelAccessPersistData st ch =
        some (IPMI_CC_ACTION_NOT_SUPPORTED_FOR_CHANNEL, none, st) ∧
      (∀ nd m, setChannelAccessData st ch nd m =
        some (IPMI_CC_ACTION_NOT_SUPPORTED_FOR_CHANNEL, st)) ∧
      (∀ nd m, setChannelAccessPersistData st ch nd m =
        some (IPMI_CC_ACTION_NOT_SUPPORTED_FOR_CHANNEL, st)) := by
  intro st ch cd hle hcd hvb hsess
  have hch' : ¬ ch > maxIpmiChannels := by omega
  have hvalid : isValidChannel st.channelData ch = some true := by
    unfold isValidChannel
    rw [if_neg hch', hcd]
    simp [hvb]
  have hss : getChannelSessionSupport st.channelData ch =
      some cd.chInfo.sessionSupported := by
    unfold getChannelSessionSupport
    rw [hcd]
    rfl
  refine ⟨?_, ?_, ?_, ?_⟩
  · unfold getChannelAccessData
    simp only [hvalid, hss]
    rw [if_pos hsess]
  · unfold getChannelAccessPersistData
    simp only [hvalid, hss]
    rw [if_pos hsess]
  · intro nd m
    unfold setChannelAccessData
    simp only [hvalid, hss]
    rw [if_pos hsess]
  · intro nd m
    unfold setChannelAccessPersistData
    simp only [hvalid, hss]
    rw [if_pos hsess]

/-- Witness for C6 (amended): channel 2 of `stSysIf` is a valid session-less
system-interface channel; reading its volatile access data returns the
NotSupported code with the state unchanged. -/
theorem claim_C6_witness :
    getChannelAccessData stSysIf 2 =
      some (IPMI_CC_ACTION_NOT_SUPPORTED_FOR_CHANNEL, none, stSysIf) :=
  (claim_C6 stSysIf 2 cdSysIf (by decide) rfl rfl rfl).1

theorem serializeChList_err_of_priv (getA : ChannelData → ChannelAccess)
    (arr : List ChannelData) (idxs : List Nat) (c : Nat) (cd : ChannelData)
    (hc : c ∈ idxs) (hcd : arr[c]? = some cd)
    (hsess : cd.chInfo.sessionSupported ≠ sessionNone)
    (hbad : privList.length ≤ (getA cd).privLimit) :
    ∃ e, serializeChList getA arr idxs = .error e := by
  cases h : serializeChList getA arr idxs with
  | error e => exact ⟨e, rfl⟩
  | ok out =>
    exfalso
    have := (serializeChList_ok_inrange getA arr idxs out h c hc cd hcd hsess).2
    omega

/-- C4: out-of-enumeration access-control values are never persisted.
(i) On either layer, a write whose mask selects the access-mode field with
an out-of-enumeration access mode is rejected with
`IPMI_CC_INVALID_FIELD_REQUEST` before any state change (the input state is
returned untouched).  (ii) On either layer, a write whose mask selects the
privilege-limit field with an out-of-enumeration privilege code updates
only the in-memory record: the file write fails during re-serialization
(`convertToPrivLimitString` refuses the code), the operation returns
`IPMI_CC_UNSPECIFIED_ERROR`, and the file system — in particular the
layer's backing file — is exactly as before. -/
theorem claim_C4 :
    (∀ st ch cd nd m,
      ch ≤ maxIpmiChannels →
      st.channelData[ch]? = some cd →
      cd.isChValid = true →
      cd.chInfo.sessionSupported ≠ sessionNone →
      m &&& setAccessMode ≠ 0 →
      isValidAccessMode nd.accessMode = false →
      setChannelAccessData st ch nd m =
        some (IPMI_CC_INVALID_FIELD_REQUEST, st) ∧
      setChannelAccessPersistData st ch nd m =
        some (IPMI_CC_INVALID_FIELD_REQUEST, st)) ∧
    (∀ st ch cd nd m,
      ch < maxIpmiChannels →
      st.channelData[ch]? = some cd →
      cd.isChValid = true →
      cd.chInfo.sessionSupported ≠ sessionNone →
      statVol st.fs = st.voltFileLastUpdatedTime →
      st.fs.volFile.isSome →
      (m &&& setAccessMode ≠ 0 → isValidAccessMode nd.accessMode = true) →
      m &&& setPrivLimit ≠ 0 →
      privList.length ≤ nd.privLimit →
      setChannelAccessData st ch nd m =
        some (IPMI_CC_UNSPECIFIED_ERROR, applyMaskVolatile st ch nd m) ∧
      (applyMaskVolatile st ch nd m).fs = st.fs) ∧
    (∀ st ch cd nd m,
      ch < maxIpmiChannels →
      st.channelData[ch]? = some cd →
      cd.isChValid = true →
      cd.chInfo.sessionSupported ≠ sessionNone →
      statNv st.fs = st.nvFileLastUpdatedTime →
      st.fs.nvFile.isSome →
      (m &&& setAccessMode ≠ 0 → isValidAccessMode nd.accessMode = true) →
      m &&& setPrivLimit ≠ 0 →
      privList.length ≤ nd.privLimit →
      setChannelAccessPersistData st ch nd m =
        some (IPMI_CC_UNSPECIFIED_ERROR, applyMaskNonVolatile st ch nd m) ∧
      (applyMaskNonVolatile st ch nd m).fs = st.fs) := by
  refine ⟨?_, ?_, ?_⟩
  · intro st ch cd nd m hle hcd hvb hsn hm hmode
    have hch' : ¬ ch > maxIpmiChannels := by omega
    have hvalid : isValidChannel st.channelData ch = some true := by
      unfold isValidChannel
      rw [if_neg hch', hcd]
      simp [hvb]
    have hss : getChannelSessionSupport st.channelData ch =
        some cd.chInfo.sessionSupported := by
      unfold getChannelSessionSupport
      rw [hcd]
      rfl
    constructor
    · unfold setChannelAccessData
      simp only [hvalid, hss]
      rw [if_neg hsn, if_pos ⟨hm, hmode⟩]
    · unfold setChannelAccessPersistData
      simp only [hvalid, hss]
      rw [if_neg hsn, if_pos ⟨hm, hmode⟩]
  · intro st ch cd nd m hlt hcd hvb hsn hfresh hsome hgm hmp hpbad
    have hch' : ¬ ch > maxIpmiChannels := by omega
    have hvalid : isValidChannel st.channelData ch = some true := by
      unfold isValidChannel
      rw [if_neg hch', hcd]
      simp [hvb]
    have hss : getChannelSessionSupport st.channelData ch =
        some cd.chInfo.sessionSupported := by
      unfold getChannelSessionSupport
      rw [hcd]
      rfl
    have hfs : (applyMaskVolatile st ch nd m).fs = st.fs := by
      rw [applyMaskVolatile_eq]
      rfl
    have hmcd : (applyMaskVolatile st ch nd m).channelData[ch]? =
        some { cd with chAccess := { cd.chAccess with
          chVolatileData := mergeMask cd.chAccess.chVolatileData nd m } } := by
      rw [applyMaskVolatile_eq]
      show (modifyCh st.channelData ch _)[ch]? = _
      rw [modifyCh_getElem?_self, hcd]
      rfl
    have hpriv : privList.length ≤
        (mergeMask cd.chAccess.chVolatileData nd m).privLimit := by
      unfold mergeMask
      rw [if_pos hmp]
      exact hpbad
    obtain ⟨e, herr⟩ := serializeChList_err_of_priv
      (fun cd => cd.chAccess.chVolatileData)
      (applyMaskVolatile st ch nd m).channelData (List.range maxIpmiChannels)
      ch _ (List.mem_range.mpr hlt) hmcd hsn hpriv
    have hwrite : writeChannelVolatileData (applyMaskVolatile st ch nd m) =
        (-22, applyMaskVolatile st ch nd m) := by
      unfold writeChannelVolatileData
      rw [herr]
    have hrel : checkAndReloadVolatileData st = (0, st) :=
      checkAndReloadVolatileData_fresh st hsome hfresh
    refine ⟨?_, hfs⟩
    unfold setChannelAccessData
    simp only [hvalid, hss, hrel, hwrite]
    rw [if_neg hsn]
    rw [if_neg (by
      rintro ⟨h1, h2⟩
      rw [hgm h1] at h2
      exact Bool.noConfusion h2)]
    simp
  · intro st ch cd nd m hlt hcd hvb hsn hfresh hsome hgm hmp hpbad
    have hch' : ¬ ch > maxIpmiChannels := by omega
    have hvalid : isValidChannel st.channelData ch = some true := by
      unfold isValidChannel
      rw [if_neg hch', hcd]
      simp [hvb]
    have hss : getChannelSessionSupport st.channelData ch =
        some cd.chInfo.sessionSupported := by
      unfold getChannelSessionSupport
      rw [hcd]
      rfl
    have hfs : (applyMaskNonVolatile st ch nd m).fs = st.fs := by
      rw [applyMaskNonVolatile_eq]
      rfl
    have hmcd : (applyMaskNonVolatile st ch nd m).channelData[ch]? =
        some { cd with chAccess := { cd.chAccess with
          chNonVolatileData := mergeMask cd.chAccess.chNonVolatileData nd m } } := by
      rw [applyMaskNonVolatile_eq]
      show (modifyCh st.channelData ch _)[ch]? = _
      rw [modifyCh_getElem?_self, hcd]
      rfl
    have hpriv : privList.length ≤
        (mergeMask cd.chAccess.chNonVolatileData nd m).privLimit := by
      unfold mergeMask
      rw [if_pos hmp]
      exact hpbad
    obtain ⟨e, herr⟩ := serializeChList_err_of_priv
      (fun cd => cd.chAccess.chNonVolatileData)
      (applyMaskNonVolatile st ch nd m).channelData (List.range maxIpmiChannels)
      ch _ (List.mem_range.mpr hlt) hmcd hsn hpriv
    have hwrite : writeChannelPersistData (applyMaskNonVolatile st ch nd m) =
        (-22, applyMaskNonVolatile st ch nd m) := by
      unfold writeChannelPersistData
      rw [herr]
    have hrel : checkAndReloadNVData st = (0, st) :=
      checkAndReloadNVData_fresh st hsome hfresh
    refine ⟨?_, hfs⟩
    unfold setChannelAccessPersistData
    simp only [hvalid, hss, hrel, hwrite]
    rw [if_neg hsn]
    rw [if_neg (by
      rintro ⟨h1, h2⟩
      rw [hgm h1] at h2
      exact Bool.noConfusion h2)]
    simp

/-- Witness for C4: on `stBase`, channel 1 — a masked write of access mode
code 9 is rejected as InvalidRequest with no state change, and a masked
write of privilege code 9 fails as Unspecified with the file system
untouched. -/
theorem claim_C4_witness :
    setChannelAccessData stBase 1 ndBadMode 1 =
      some (IPMI_CC_INVALID_FIELD_REQUEST, stBase) ∧
    setChannelAccessData stBase 1 ndBadPriv 16 =
      some (IPMI_CC_UNSPECIFIED_ERROR, applyMaskVolatile stBase 1 ndBadPriv 16) ∧
    (applyMaskVolatile stBase 1 ndBadPriv 16).fs = stBase.fs := by
  refine ⟨?_, ?_, ?_⟩
  · exact (claim_C4.1 stBase 1 cdLan ndBadMode 1 (by decide) rfl rfl (by decide)
      (by decide) rfl).1
  · exact (claim_C4.2.1 stBase 1 cdLan ndBadPriv 16 (by decide) rfl rfl (by decide)
      rfl rfl (by decide) (by decide) (by decide)).1
  · exact (claim_C4.2.1 stBase 1 cdLan ndBadPriv 16 (by decide) rfl rfl (by decide)
      rfl rfl (by decide) (by decide) (by decide)).2

theorem applyVolAccessEntry_shell (st : State) (c : Nat) (j : AccessJson)
    (st' : State)
    (h : applyVolAccessEntry st c j = .ok st' ∨
      applyVolAccessEntry st c j = .error st') :
    st'.fs = st.fs ∧ st'.voltFileLastUpdatedTime = st.voltFileLastUpdatedTime ∧
      st'.nvFileLastUpdatedTime = st.nvFileLastUpdatedTime := by
  unfold applyVolAccessEntry at h
  by_cases hc : c > maxIpmiChannels
  · rw [if_pos hc] at h
    rcases h with h | h
    · exact Except.noConfusion h
    · obtain rfl := (Except.error.inj h).symm
      exact ⟨rfl, rfl, rfl⟩
  · rw [if_neg hc] at h
    cases ham : convertToAccessModeIndex j.accessMode with
    | error e =>
      rw [ham] at h
      rcases h with h | h
      · exact Except.noConfusion h
      · obtain rfl := (Except.error.inj h).symm
        exact ⟨rfl, rfl, rfl⟩
    | ok am =>
      rw [ham] at h
      cases hpm : convertToPrivLimitIndex j.privLimit with
      | error e =>
        rw [hpm] at h
        rcases h with h | h
        · exact Except.noConfusion h
        · obtain rfl := (Except.error.inj h).symm
          exact ⟨rfl, rfl, rfl⟩
      | ok pl =>
        rw [hpm] at h
        rcases h with h | h
        · obtain rfl := (Except.ok.inj h).symm
          exact ⟨rfl, rfl, rfl⟩
        · exact Except.noConfusion h

theorem applyVolEntries_shell :
    ∀ (l : List (Nat × AccessJson)) (st st' : State),
      (applyVolEntries l st = .ok st' ∨ applyVolEntries l st = .error st') →
      st'.fs = st.fs ∧ st'.voltFileLastUpdatedTime = st.voltFileLastUpdatedTime ∧
        st'.nvFileLastUpdatedTime = st.nvFileLastUpdatedTime := by
  intro l
  induction l with
  | nil =>
    intro st st' h
    rcases h with h | h
    · obtain rfl := (Except.ok.inj h).symm
      exact ⟨rfl, rfl, rfl⟩
    · exact Except.noConfusion h
  | cons e rest ih =>
    intro st st' h
    obtain ⟨c, j⟩ := e
    unfold applyVolEntries at h
    cases hstep : applyVolAccessEntry st c j with
    | error s1 =>
      rw [hstep] at h
      rcases h with h | h
      · exact Except.noConfusion h
      · obtain rfl := (Except.error.inj h).symm
        exact applyVolAccessEntry_shell st c j st' (Or.inr hstep)
    | ok s1 =>
      rw [hstep] at h
      obtain ⟨h1, h2, h3⟩ := ih s1 st' h
      obtain ⟨g1, g2, g3⟩ := applyVolAccessEntry_shell st c j s1 (Or.inl hstep)
      exact ⟨h1.trans g1, h2.trans g2, h3.trans g3⟩

theorem applyNvAccessEntry_shell (st : State) (c : Nat) (j : AccessJson)
    (st' : State)
    (h : applyNvAccessEntry st c j = .ok st' ∨
      applyNvAccessEntry st c j = .error st') :
    st'.fs = st.fs ∧ st'.voltFileLastUpdatedTime = st.voltFileLastUpdatedTime ∧
      st'.nvFileLastUpdatedTime = st.nvFileLastUpdatedTime := by
  unfold applyNvAccessEntry at h
  by_cases hc : c > maxIpmiChannels
  · rw [if_pos hc] at h
    rcases h with h | h
    · exact Except.noConfusion h
    · obtain rfl := (Except.error.inj h).symm
      exact ⟨rfl, rfl, rfl⟩
  · rw [if_neg hc] at h
    cases ham : convertToAccessModeIndex j.accessMode with
    | error e =>
      rw [ham] at h
      rcases h with h | h
      · exact Except.noConfusion h
      · obtain rfl := (Except.error.inj h).symm
        exact ⟨rfl, rfl, rfl⟩
    | ok am =>
      rw [ham] at h
      cases hpm : convertToPrivLimitIndex j.privLimit with
      | error e =>
        rw [hpm] at h
        rcases h with h | h
        · exact Except.noConfusion h
        · obtain rfl := (Except.error.inj h).symm
          exact ⟨rfl, rfl, rfl⟩
      | ok pl =>
        rw [hpm] at h
        rcases h with h | h
        · obtain rfl := (Except.ok.inj h).symm
          exact ⟨rfl, rfl, rfl⟩
        · exact Except.noConfusion h

theorem applyNvEntries_shell :
    ∀ (l : List (Nat × AccessJson)) (st st' : State),
      (applyNvEntries l st = .ok st' ∨ applyNvEntries l st = .error st') →
      st'.fs = st.fs ∧ st'.voltFileLastUpdatedTime = st.voltFileLastUpdatedTime ∧
        st'.nvFileLastUpdatedTime = st.nvFileLastUpdatedTime := by
  intro l
  induction l with
  | nil =>
    intro st st' h
    rcases h with h | h
    · obtain rfl := (Except.ok.inj h).symm
      exact ⟨rfl, rfl, rfl⟩
    · exact Except.noConfusion h
  | cons e rest ih =>
    intro st st' h
    obtain ⟨c, j⟩ := e
    unfold applyNvEntries at h
    cases hstep : applyNvAccessEntry st c j with
    | error s1 =>
      rw [hstep] at h
      rcases h with h | h
      · exact Except.noConfusion h
      · obtain rfl := (Except.error.inj h).symm
        exact applyNvAccessEntry_shell st c j st' (Or.inr hstep)
    | ok s1 =>
      rw [hstep] at h
      obtain ⟨h1, h2, h3⟩ := ih s1 st' h
      obtain ⟨g1, g2, g3⟩ := applyNvAccessEntry_shell st c j s1 (Or.inl hstep)
      exact ⟨h1.trans g1, h2.trans g2, h3.trans g3⟩

/-- C3: staleness detection, for each access layer.
(i)/(ii): after a successful file write the layer's cached modification
timestamp equals the backing file's actual modification time.
(iii)/(iv): a read on a state whose cache matches the file's timestamp
returns with the state completely unchanged — in particular no file access
happens (the injected `readCount` stays put) and nothing is re-parsed.
(v)/(vi): on a state whose file timestamp differs from the cache and whose
file holds parseable entries, a read re-reads and re-parses the file
(`readCount` goes up by one) and returns the data of the freshly parsed
in-memory layer, with the cache updated to the file's timestamp.  (In the
model a failing `stat` coincides with an absent file, so the "stat failed"
arm of the claim has no content-bearing instance to state.) -/
theorem claim_C3 :
    (∀ st st', writeChannelVolatileData st = (0, st') →
      st'.voltFileLastUpdatedTime = statVol st'.fs) ∧
    (∀ st st', writeChannelPersistData st = (0, st') →
      st'.nvFileLastUpdatedTime = statNv st'.fs) ∧
    (∀ st ch r o st₂, st.fs.volFile.isSome →
      statVol st.fs = st.voltFileLastUpdatedTime →
      getChannelAccessData st ch = some (r, o, st₂) → st₂ = st) ∧
    (∀ st ch r o st₂, st.fs.nvFile.isSome →
      statNv st.fs = st.nvFileLastUpdatedTime →
      getChannelAccessPersistData st ch = some (r, o, st₂) → st₂ = st) ∧
    (∀ st ch cd l stb cd2,
      ch ≤ maxIpmiChannels →
      st.channelData[ch]? = some cd →
      cd.isChValid = true →
      cd.chInfo.sessionSupported ≠ sessionNone →
      st.fs.volFile = some (.entries l) →
      statVol st.fs ≠ st.voltFileLastUpdatedTime →
      applyVolEntries l (bumpRead st) = .ok stb →
      stb.channelData[ch]? = some cd2 →
      getChannelAccessData st ch =
        some (IPMI_CC_OK, some cd2.chAccess.chVolatileData,
          { stb with voltFileLastUpdatedTime := statVol stb.fs }) ∧
      stb.fs.readCount = st.fs.readCount + 1) ∧
    (∀ st ch cd l stb cd2,
      ch ≤ maxIpmiChannels →
      st.channelData[ch]? = some cd →
      cd.isChValid = true →
      cd.chInfo.sessionSupported ≠ sessionNone →
      st.fs.nvFile = some (.entries l) →
      statNv st.fs ≠ st.nvFileLastUpdatedTime →
      applyNvEntries l (bumpRead st) = .ok stb →
      stb.channelData[ch]? = some cd2 →
      getChannelAccessPersistData st ch =
        some (IPMI_CC_OK, some cd2.chAccess.chNonVolatileData,
          { stb with nvFileLastUpdatedTime := statNv stb.fs }) ∧
      stb.fs.readCount = st.fs.readCount + 1) := by
  refine ⟨?_, ?_, ?_, ?_, ?_, ?_⟩
  · intro st st' hw
    obtain ⟨out, hs, hst'⟩ := writeVol_ok_elim st st' hw
    subst hst'
    rfl
  · intro st st' hw
    obtain ⟨out, hs, hst'⟩ := writeNv_ok_elim st st' hw
    subst hst'
    rfl
  · intro st ch r o st₂ hsome hfresh hget
    have hrel := checkAndReloadVolatileData_fresh st hsome hfresh
    unfold getChannelAccessData at hget
    cases hv : isValidChannel st.channelData ch with
    | none =>
      rw [hv] at hget
      exact Option.noConfusion hget
    | some b =>
      cases b with
      | false =>
        simp only [hv] at hget
        simp only [Option.some.injEq, Prod.mk.injEq] at hget
        exact hget.2.2.symm
      | true =>
        simp only [hv] at hget
        cases hsv : getChannelSessionSupport st.channelData ch with
        | none =>
          simp only [hsv] at hget
          exact Option.noConfusion hget
        | some ss =>
          simp only [hsv] at hget
          by_cases hs0 : ss = sessionNone
          · rw [if_pos hs0] at hget
            simp only [Option.some.injEq, Prod.mk.injEq] at hget
            exact hget.2.2.symm
          · rw [if_neg hs0] at hget
            simp only [hrel] at hget
            rw [if_neg (by decide : ¬ (0 : Int) ≠ 0)] at hget
            cases hc2 : st.channelData[ch]? with
            | none =>
              simp only [hc2] at hget
              exact Option.noConfusion hget
            | some cd =>
              simp only [hc2] at hget
              simp only [Option.some.injEq, Prod.mk.injEq] at hget
              exact hget.2.2.symm
  · intro st ch r o st₂ hsome hfresh hget
    have hrel := checkAndReloadNVData_fresh st hsome hfresh
    unfold getChannelAccessPersistData at hget
    cases hv : isValidChannel st.channelData ch with
    | none =>
      rw [hv] at hget
      exact Option.noConfusion hget
    | some b =>
      cases b with
      | false =>
        simp only [hv] at hget
        simp only [Option.some.injEq, Prod.mk.injEq] at hget
        exact hget.2.2.symm
      | true =>
        simp only [hv] at hget
        cases hsv : getChannelSessionSupport st.channelData ch with
        | none =>
          simp only [hsv] at hget
          exact Option.noConfusion hget
        | some ss =>
          simp only [hsv] at hget
          by_cases hs0 : ss = sessionNone
          · rw [if_pos hs0] at hget
            simp only [Option.some.injEq, Prod.mk.injEq] at hget
            exact hget.2.2.symm
          · rw [if_neg hs0] at hget
            simp only [hrel] at hget
            rw [if_neg (by decide : ¬ (0 : Int) ≠ 0)] at hget
            cases hc2 : st.channelData[ch]? with
            | none =>
              simp only [hc2] at hget
              exact Option.noConfusion hget
            | some cd =>
              simp only [hc2] at hget
              simp only [Option.some.injEq, Prod.mk.injEq] at hget
              exact hget.2.2.symm
  · intro st ch cd l stb cd2 hle hcd hvb hsn hfile hstale happ hcd2
    have hch' : ¬ ch > maxIpmiChannels := by omega
    have hvalid : isValidChannel st.channelData ch = some true := by
      unfold isValidChannel
      rw [if_neg hch', hcd]
      simp [hvb]
    have hss : getChannelSessionSupport st.channelData ch =
        some cd.chInfo.sessionSupported := by
      unfold getChannelSessionSupport
      rw [hcd]
      rfl
    have hfileB : (bumpRead st).fs.volFile = some (.entries l) := hfile
    have hread : readChannelVolatileData st =
        .ok (0, { stb with voltFileLastUpdatedTime := statVol stb.fs }) := by
      unfold readChannelVolatileData
      simp only [hfileB, happ]
    have hrel : checkAndReloadVolatileData st =
        (0, { stb with voltFileLastUpdatedTime := statVol stb.fs }) := by
      unfold checkAndReloadVolatileData
      rw [if_pos (Or.inl hstale)]
      rw [hread]
    constructor
    · unfold getChannelAccessData
      simp only [hvalid, hss, hrel, hcd2]
      rw [if_neg hsn]
      simp
    · obtain ⟨hfs, -, -⟩ := applyVolEntries_shell l (bumpRead st) stb (Or.inl happ)
      rw [hfs]
      rfl
  · intro st ch cd l stb cd2 hle hcd hvb hsn hfile hstale happ hcd2
    have hch' : ¬ ch > maxIpmiChannels := by omega
    have hvalid : isValidChannel st.channelData ch = some true := by
      unfold isValidChannel
      rw [if_neg hch', hcd]
      simp [hvb]
    have hss : getChannelSessionSupport st.channelData ch =
        some cd.chInfo.sessionSupported := by
      unfold getChannelSessionSupport
      rw [hcd]
      rfl
    have hfileB : (bumpRead st).fs.nvFile = some (.entries l) := hfile
    have hread : readChannelPersistData st =
        .ok (0, { stb with nvFileLastUpdatedTime := statNv stb.fs }) := by
      unfold readChannelPersistData
      simp only [hfileB, happ]
    have hrel : checkAndReloadNVData st =
        (0, { stb with nvFileLastUpdatedTime := statNv stb.fs }) := by
      unfold checkAndReloadNVData
      rw [if_pos (Or.inl hstale)]
      rw [hread]
    constructor
    · unfold getChannelAccessPersistData
      simp only [hvalid, hss, hrel, hcd2]
      rw [if_neg hsn]
      simp
    · obtain ⟨hfs, -, -⟩ := applyNvEntries_shell l (bumpRead st) stb (Or.inl happ)
      rw [hfs]
      rfl

/-- Witness for C3: on `stBase`, a volatile write leaves the cached
timestamp equal to the file's, and an in-sync read returns with the state
untouched. -/
theorem claim_C3_witness :
    (writeChannelVolatileData stBase).2.voltFileLastUpdatedTime =
      statVol (writeChannelVolatileData stBase).2.fs ∧ stBase = stBase :=
  ⟨claim_C3.1 stBase (writeChannelVolatileData stBase).2 rfl,
   claim_C3.2.2.1 stBase 1 IPMI_CC_OK (some cdLan.chAccess.chVolatileData)
     stBase rfl rfl rfl⟩

/-- C7: the converters are inverse pairs where both directions exist,
and fail with `invalid_argument` off the tables.  `toString (toCode s) = s`
for every token of the two enumerations that have both a string→code and a
code→string converter (access mode and privilege limit; the session,
medium and protocol enumerations only have string→code converters in the
source).  Every string→code converter fails with InvalidArgument on any
string outside its table, and both code→string converters fail with
InvalidArgument on every code outside the table's bounds. -/
theorem claim_C7 :
    (∀ s ∈ accessModeList,
      (convertToAccessModeIndex s).bind convertToAccessModeString = .ok s) ∧
    (∀ s ∈ privList,
      (convertToPrivLimitIndex s).bind convertToPrivLimitString = .ok s) ∧
    (∀ s, s ∉ accessModeList →
      convertToAccessModeIndex s = .error .invalidArgument) ∧
    (∀ s, s ∉ privList →
      convertToPrivLimitIndex s = .error .invalidArgument) ∧
    (∀ s, s ∉ sessionSupportList →
      convertToSessionSupportIndex s = .error .invalidArgument) ∧
    (∀ s, s ∉ mediumTypeMap.map Prod.fst →
      convertToMediumTypeIndex s = .error .invalidArgument) ∧
    (∀ s, s ∉ protocolTypeMap.map Prod.fst →
      convertToProtocolTypeIndex s = .error .invalidArgument) ∧
    (∀ v, accessModeList.length ≤ v →
      convertToAccessModeString v = .error .invalidArgument) ∧
    (∀ v, privList.length ≤ v →
      convertToPrivLimitString v = .error .invalidArgument) := by
  refine ⟨by decide, by decide, ?_, ?_, ?_, ?_, ?_, ?_, ?_⟩
  · intro s hs
    unfold convertToAccessModeIndex
    rw [List.findIdx?_eq_none_iff.mpr]
    intro x hx
    simp only [beq_eq_false_iff_ne]
    intro hxe
    exact hs (hxe ▸ hx)
  · intro s hs
    unfold convertToPrivLimitIndex
    rw [List.findIdx?_eq_none_iff.mpr]
    intro x hx
    simp only [beq_eq_false_iff_ne]
    intro hxe
    exact hs (hxe ▸ hx)
  · intro s hs
    unfold convertToSessionSupportIndex
    rw [List.findIdx?_eq_none_iff.mpr]
    intro x hx
    simp only [beq_eq_false_iff_ne]
    intro hxe
    exact hs (hxe ▸ hx)
  · intro s hs
    unfold convertToMediumTypeIndex
    rw [List.find?_eq_none.mpr]
    intro p hp
    simp only [beq_eq_false_iff_ne, ne_eq, Bool.not_eq_true, beq_eq_false_iff_ne]
    intro hxe
    exact hs (hxe ▸ List.mem_map_of_mem Prod.fst hp)
  · intro s hs
    unfold convertToProtocolTypeIndex
    rw [List.find?_eq_none.mpr]
    intro p hp
    simp only [beq_eq_false_iff_ne, ne_eq, Bool.not_eq_true, beq_eq_false_iff_ne]
    intro hxe
    exact hs (hxe ▸ List.mem_map_of_mem Prod.fst hp)
  · intro v hv
    unfold convertToAccessModeString
    rw [if_pos hv]
  · intro v hv
    unfold convertToPrivLimitString
    rw [if_pos hv]

/-- Witness for C7: sample instantiations — round trips at `shared` and
`priv-admin`, unknown-token failures at `bogus`, and out-of-bounds
code→string failures at codes 4 / 6. -/
theorem claim_C7_witness :
    (convertToAccessModeIndex "shared").bind convertToAccessModeString =
      .ok "shared" ∧
    (convertToPrivLimitIndex "priv-admin").bind convertToPrivLimitString =
      .ok "priv-admin" ∧
    convertToAccessModeIndex "bogus" = .error .invalidArgument ∧
    convertToPrivLimitIndex "bogus" = .error .invalidArgument ∧
    convertToSessionSupportIndex "bogus" = .error .invalidArgument ∧
    convertToMediumTypeIndex "bogus" = .error .invalidArgument ∧
    convertToProtocolTypeIndex "bogus" = .error .invalidArgument ∧
    convertToAccessModeString 4 = .error .invalidArgument ∧
    convertToPrivLimitString 6 = .error .invalidArgument :=
  ⟨claim_C7.1 "shared" (by decide),
   claim_C7.2.1 "priv-admin" (by decide),
   claim_C7.2.2.1 "bogus" (by decide),
   claim_C7.2.2.2.1 "bogus" (by decide),
   claim_C7.2.2.2.2.1 "bogus" (by decide),
   claim_C7.2.2.2.2.2.1 "bogus" (by decide),
   claim_C7.2.2.2.2.2.2.1 "bogus" (by decide),
   claim_C7.2.2.2.2.2.2.2.1 4 (by decide),
   claim_C7.2.2.2.2.2.2.2.2 6 (by decide)⟩

theorem modifyCh_length (l : List ChannelData) (i : Nat)
    (f : ChannelData → ChannelData) :
    (modifyCh l i f).length = l.length := by
  unfold modifyCh
  cases h : l[i]? with
  | none => rfl
  | some v => exact List.length_set l i (f v)

theorem loadChannelStep_other (cfg : List (Nat × ChanCfgJson)) (st : State)
    (c j : Nat) (hne : j ≠ c) :
    (loadChannelStep cfg st c).2.channelData[j]? = st.channelData[j]? := by
  have hcj : c ≠ j := Ne.symm hne
  unfold loadChannelStep
  cases hl : lookupCfg cfg c with
  | none =>
    simp only [hl]
    unfold setDefaultChannelConfig
    rw [modifyCh_getElem?_ne _ _ _ _ hcj, List.getElem?_set_ne hcj]
  | some jj =>
    simp only [hl]
    cases hinfo : jj.chInfo with
    | none =>
      simp only [hinfo]
      rw [modifyCh_getElem?_ne _ _ _ _ hcj, List.getElem?_set_ne hcj]
    | some info =>
      simp only [hinfo]
      cases hm : convertToMediumTypeIndex info.mediumType with
      | error e =>
        simp only [hm]
        rw [modifyCh_getElem?_ne _ _ _ _ hcj, List.getElem?_set_ne hcj]
      | ok mt =>
        simp only [hm]
        cases hp : convertToProtocolTypeIndex info.protocolType with
        | error e =>
          simp only [hp]
          rw [modifyCh_getElem?_ne _ _ _ _ hcj, modifyCh_getElem?_ne _ _ _ _ hcj,
            List.getElem?_set_ne hcj]
        | ok pt =>
          simp only [hp]
          cases hsv : convertToSessionSupportIndex info.sessionSupported with
          | error e =>
            simp only [hsv]
            rw [modifyCh_getElem?_ne _ _ _ _ hcj, modifyCh_getElem?_ne _ _ _ _ hcj,
              modifyCh_getElem?_ne _ _ _ _ hcj, List.getElem?_set_ne hcj]
          | ok ssup =>
            simp only [hsv]
            rw [modifyCh_getElem?_ne _ _ _ _ hcj, modifyCh_getElem?_ne _ _ _ _ hcj,
              modifyCh_getElem?_ne _ _ _ _ hcj, modifyCh_getElem?_ne _ _ _ _ hcj,
              List.getElem?_set_ne hcj]

theorem loadChannelStep_length (cfg : List (Nat × ChanCfgJson)) (st : State)
    (c : Nat) :
    (loadChannelStep cfg st c).2.channelData.length = st.channelData.length := by
  unfold loadChannelStep
  cases hl : lookupCfg cfg c with
  | none =>
    simp only [hl]
    unfold setDefaultChannelConfig
    rw [modifyCh_length, List.length_set]
  | some jj =>
    simp only [hl]
    cases hinfo : jj.chInfo with
    | none =>
      simp only [hinfo]
      rw [modifyCh_length, List.length_set]
    | some info =>
      simp only [hinfo]
      cases hm : convertToMediumTypeIndex info.mediumType with
      | error e =>
        simp only [hm]
        rw [modifyCh_length, List.length_set]
      | ok mt =>
        simp only [hm]
        cases hp : convertToProtocolTypeIndex info.protocolType with
        | error e =>
          simp only [hp]
          rw [modifyCh_length, modifyCh_length, List.length_set]
        | ok pt =>
          simp only [hp]
          cases hsv : convertToSessionSupportIndex info.sessionSupported with
          | error e =>
            simp only [hsv]
            rw [modifyCh_length, modifyCh_length, modifyCh_length, List.length_set]
          | ok ssup =>
            simp only [hsv]
            rw [modifyCh_length, modifyCh_length, modifyCh_length, modifyCh_length,
              List.length_set]

theorem loadChannelStep_auth_self (cfg : List (Nat × ChanCfgJson)) (st : State)
    (c : Nat) (st' : State) (hlt : c < st.channelData.length)
    (h : loadChannelStep cfg st c = (0, st')) :
    (st'.channelData[c]?).map (fun cd => cd.chInfo.authTypeSupported) =
      some defaultAuthType := by
  unfold loadChannelStep at h
  cases hl : lookupCfg cfg c with
  | none =>
    simp only [hl] at h
    rw [Prod.mk.injEq] at h
    rw [← h.2]
    unfold setDefaultChannelConfig
    simp [modifyCh_getElem?_self, List.getElem?_set_self hlt]
  | some jj =>
    simp only [hl] at h
    cases hinfo : jj.chInfo with
    | none =>
      simp only [hinfo] at h
      rw [Prod.mk.injEq] at h
      exact absurd h.1 (by decide)
    | some info =>
      simp only [hinfo] at h
      cases hm : convertToMediumTypeIndex info.mediumType with
      | error e =>
        simp only [hm] at h
        rw [Prod.mk.injEq] at h
        exact absurd h.1 (by decide)
      | ok mt =>
        simp only [hm] at h
        cases hp : convertToProtocolTypeIndex info.protocolType with
        | error e =>
          simp only [hp] at h
          rw [Prod.mk.injEq] at h
          exact absurd h.1 (by decide)
        | ok pt =>
          simp only [hp] at h
          cases hsv : convertToSessionSupportIndex info.sessionSupported with
          | error e =>
            simp only [hsv] at h
            rw [Prod.mk.injEq] at h
            exact absurd h.1 (by decide)
          | ok ssup =>
            simp only [hsv] at h
            rw [Prod.mk.injEq] at h
            rw [← h.2]
            simp [modifyCh_getElem?_self, List.getElem?_set_self hlt]

theorem loadChannelLoop_other (cfg : List (Nat × ChanCfgJson)) :
    ∀ (l : List Nat) (st : State) (j : Nat), j ∉ l →
      (loadChannelLoop cfg l st).2.channelData[j]? = st.channelData[j]? := by
  intro l
  induction l with
  | nil => intro st j hj; rfl
  | cons x rest ih =>
    intro st j hj
    have hjx : j ≠ x := fun he => hj (he ▸ List.mem_cons_self x rest)
    have hjr : j ∉ rest := fun hm => hj (List.mem_cons_of_mem x hm)
    unfold loadChannelLoop
    cases hstep : loadChannelStep cfg st x with
    | mk r st1 =>
      simp only [hstep]
      by_cases hr : r = 0
      · rw [if_pos hr]
        rw [ih st1 j hjr]
        have := loadChannelStep_other cfg st x j hjx
        rw [hstep] at this
        exact this
      · rw [if_neg hr]
        have := loadChannelStep_other cfg st x j hjx
        rw [hstep] at this
        exact this

theorem loadChannelLoop_auth (cfg : List (Nat × ChanCfgJson)) :
    ∀ (l : List Nat) (st st' : State), loadChannelLoop cfg l st = (0, st') →
      l.Nodup →
      ∀ c ∈ l, c < st.channelData.length →
        (st'.channelData[c]?).map (fun cd => cd.chInfo.authTypeSupported) =
          some defaultAuthType := by
  intro l
  induction l with
  | nil =>
    intro st st' h hnd c hc
    exact absurd hc (List.not_mem_nil c)
  | cons x rest ih =>
    intro st st' h hnd c hc hclt
    unfold loadChannelLoop at h
    cases hstep : loadChannelStep cfg st x with
    | mk r st1 =>
      simp only [hstep] at h
      by_cases hr : r = 0
      · rw [if_pos hr] at h
        subst hr
        rcases List.mem_cons.mp hc with rfl | hmem
        · have hx1 : (st1.channelData[c]?).map
              (fun cd => cd.chInfo.authTypeSupported) = some defaultAuthType :=
            loadChannelStep_auth_self cfg st c st1 hclt hstep
          have hxnot : c ∉ rest := (List.nodup_cons.mp hnd).1
          have hpres := loadChannelLoop_other cfg rest st1 c hxnot
          rw [h] at hpres
          rw [hpres]
          exact hx1
        · have hlen : st1.channelData.length = st.channelData.length := by
            have := loadChannelStep_length cfg st x
            rw [hstep] at this
            exact this
          exact ih st1 st' h (List.nodup_cons.mp hnd).2 c hmem (hlen ▸ hclt)
      · rw [if_neg hr] at h
        exact absurd (congrArg Prod.fst h) hr

/-- C8: a successful static-config load forces every channel's
supported-authentication-type bitmask to the `none` default
(`defaultAuthType`), regardless of any authentication-type content in the
file — in particular for every channel present in the config (the `cfg`
below is arbitrary, including any `authTypeSupported` strings its entries
carry, which the loader never reads). -/
theorem claim_C8 :
    ∀ st cfg st' ch,
      st.fs.configFile = some cfg →
      loadChannelConfig st = (0, st') →
      ch < maxIpmiChannels →
      st.channelData.length = maxIpmiChannels →
      (st'.channelData[ch]?).map (fun cd => cd.chInfo.authTypeSupported) =
        some defaultAuthType := by
  intro st cfg st' ch hcfg hload hch hlen
  have hcfgB : (bumpRead st).fs.configFile = some cfg := hcfg
  unfold loadChannelConfig at hload
  simp only [hcfgB] at hload
  exact loadChannelLoop_auth cfg (List.range maxIpmiChannels) (bumpRead st) st'
    hload (List.nodup_range _) ch (List.mem_range.mpr hch)
    (by show ch < st.channelData.length; omega)

/-- Witness for C8: loading `stBoot`'s config (channel 1 present, carrying
an `auth_type_supported` string) still yields `authTypeSupported = 0`. -/
theorem claim_C8_witness :
    (((loadChannelConfig stBoot).2).channelData[1]?).map
      (fun cd => cd.chInfo.authTypeSupported) = some defaultAuthType :=
  claim_C8 stBoot [(1, cfgLan)] (loadChannelConfig stBoot).2 1 rfl rfl
    (by decide) (by decide)

/-- C10: a staleness-triggered reload is not atomic in memory.  If the
volatile file parses as JSON but its second entry fails validation (here:
an unrecognized access-mode token, or an out-of-range channel key — either
way the entry throws before writing anything), the reload returns the
caught-exception error `-EIO = -5`, yet the resulting in-memory state
already holds the new file values for the first entry's channel, while
every other channel keeps its previous record; the cached timestamp is not
updated (so the state is both partially new and still considered stale),
and the file was re-read (`readCount` is bumped).  A reload error therefore
does not imply the in-memory layer is unchanged. -/
theorem claim_C10 :
    ∀ st a b va bj rest cda am pl,
      st.fs.volFile = some (.entries ((a, va) :: (b, bj) :: rest)) →
      statVol st.fs ≠ st.voltFileLastUpdatedTime →
      a ≤ maxIpmiChannels →
      st.channelData[a]? = some cda →
      convertToAccessModeIndex va.accessMode = .ok am →
      convertToPrivLimitIndex va.privLimit = .ok pl →
      convertToAccessModeIndex bj.accessMode = .error .invalidArgument →
      ∃ st', checkAndReloadVolatileData st = (-5, st') ∧
        st'.channelData[a]? = some { cda with chAccess := { cda.chAccess with
          chVolatileData :=
            { accessMode := am, userAuthDisabled := va.userAuthDisabled,
              perMsgAuthDisabled := va.perMsgAuthDisabled,
              alertingDisabled := va.alertingDisabled, privLimit := pl } } } ∧
        (∀ c, c ≠ a → st'.channelData[c]? = st.channelData[c]?) ∧
        st'.voltFileLastUpdatedTime = st.voltFileLastUpdatedTime ∧
        st'.fs.readCount = st.fs.readCount + 1 := by
  intro st a b va bj rest cda am pl hfile hstale hale hcd ham hpl hbad
  have hstep1 : applyVolAccessEntry (bumpRead st) a va = .ok
      (updVolatile (updVolatile (bumpRead st) a (fun x =>
        { x with accessMode := am, userAuthDisabled := va.userAuthDisabled,
                 perMsgAuthDisabled := va.perMsgAuthDisabled,
                 alertingDisabled := va.alertingDisabled })) a
        (fun x => { x with privLimit := pl })) := by
    unfold applyVolAccessEntry
    rw [if_neg (by omega : ¬ a > maxIpmiChannels)]
    simp only [ham, hpl]
  have hstep2 : ∀ X, applyVolAccessEntry X b bj = .error X := by
    intro X
    unfold applyVolAccessEntry
    by_cases hb : b > maxIpmiChannels
    · rw [if_pos hb]
    · rw [if_neg hb]
      simp only [hbad]
  have hentries : applyVolEntries ((a, va) :: (b, bj) :: rest) (bumpRead st) =
      .error (updVolatile (updVolatile (bumpRead st) a (fun x =>
        { x with accessMode := am, userAuthDisabled := va.userAuthDisabled,
                 perMsgAuthDisabled := va.perMsgAuthDisabled,
                 alertingDisabled := va.alertingDisabled })) a
        (fun x => { x with privLimit := pl })) := by
    simp only [applyVolEntries, hstep1, hstep2]
  have hfB : (bumpRead st).fs.volFile =
      some (.entries ((a, va) :: (b, bj) :: rest)) := hfile
  have hread : readChannelVolatileData st =
      .error (updVolatile (updVolatile (bumpRead st) a (fun x =>
        { x with accessMode := am, userAuthDisabled := va.userAuthDisabled,
                 perMsgAuthDisabled := va.perMsgAuthDisabled,
                 alertingDisabled := va.alertingDisabled })) a
        (fun x => { x with privLimit := pl })) := by
    unfold readChannelVolatileData
    simp only [hfB, hentries]
  refine ⟨updVolatile (updVolatile (bumpRead st) a (fun x =>
      { x with accessMode := am, userAuthDisabled := va.userAuthDisabled,
               perMsgAuthDisabled := va.perMsgAuthDisabled,
               alertingDisabled := va.alertingDisabled })) a
      (fun x => { x with privLimit := pl }), ?_, ?_, ?_, rfl, rfl⟩
  · unfold checkAndReloadVolatileData
    rw [if_pos (Or.inl hstale)]
    rw [hread]
  · show (modifyCh (modifyCh (bumpRead st).channelData a _) a _)[a]? = _
    rw [modifyCh_getElem?_self, modifyCh_getElem?_self]
    have hcdB : (bumpRead st).channelData[a]? = some cda := hcd
    rw [hcdB]
    rfl
  · intro c hca
    show (modifyCh (modifyCh (bumpRead st).channelData a _) a _)[c]? = _
    rw [modifyCh_getElem?_ne _ _ _ _ (Ne.symm hca),
      modifyCh_getElem?_ne _ _ _ _ (Ne.symm hca)]
    rfl

/-- Witness for C10: on `stPartial` (stale volatile file whose first entry
is valid and second entry carries an unknown access-mode token), the reload
fails with `-5` yet channel 1 already holds the new access mode (code 0,
`disabled`) while channel 3 keeps its previous record. -/
theorem claim_C10_witness :
    (checkAndReloadVolatileData stPartial).1 = -5 ∧
    ((checkAndReloadVolatileData stPartial).2.channelData[1]?).map
      (fun cd => cd.chAccess.chVolatileData.accessMode) = some 0 ∧
    (checkAndReloadVolatileData stPartial).2.channelData[3]? =
      stPartial.channelData[3]? := by
  obtain ⟨st', h1, h2, h3, h4, h5⟩ := claim_C10 stPartial 1 2 jsonLanNew jsonBad
    [] cdLan 0 4 rfl (by decide) (by decide) rfl rfl rfl rfl
  refine ⟨?_, ?_, ?_⟩
  · rw [h1]
  · rw [h1, h2]
    rfl
  · rw [h1]
    exact h3 3 (by decide)

theorem applyNvEntries_ok_of_valid :
    ∀ (l : List (Nat × AccessJson)) (st : State), accessEntriesValid l = true →
      ∃ st', applyNvEntries l st = .ok st' := by
  intro l
  induction l with
  | nil => intro st h; exact ⟨st, rfl⟩
  | cons e rest ih =>
    intro st h
    obtain ⟨c, j⟩ := e
    unfold accessEntriesValid at h
    rw [List.all_cons, Bool.and_eq_true] at h
    obtain ⟨h1, h2⟩ := h
    rw [Bool.and_eq_true, Bool.and_eq_true] at h1
    obtain ⟨⟨hcb, hab⟩, hpb⟩ := h1
    have hc : c ≤ maxIpmiChannels := of_decide_eq_true hcb
    cases ham : convertToAccessModeIndex j.accessMode with
    | error e2 =>
      simp only [ham] at hab
      exact Bool.noConfusion hab
    | ok am =>
      cases hpm : convertToPrivLimitIndex j.privLimit with
      | error e2 =>
        simp only [hpm] at hpb
        exact Bool.noConfusion hpb
      | ok pl =>
        have hstep : applyNvAccessEntry st c j = .ok
            (updNonVolatile (updNonVolatile st c (fun x =>
              { x with accessMode := am, userAuthDisabled := j.userAuthDisabled,
                       perMsgAuthDisabled := j.perMsgAuthDisabled,
                       alertingDisabled := j.alertingDisabled })) c
              (fun x => { x with privLimit := pl })) := by
          unfold applyNvAccessEntry
          rw [if_neg (by omega : ¬ c > maxIpmiChannels)]
          simp only [ham, hpm]
        obtain ⟨st', hrest⟩ := ih _ h2
        refine ⟨st', ?_⟩
        unfold applyNvEntries
        simp only [hstep]
        exact hrest

theorem applyVolEntries_ok_of_valid :
    ∀ (l : List (Nat × AccessJson)) (st : State), accessEntriesValid l = true →
      ∃ st', applyVolEntries l st = .ok st' := by
  intro l
  induction l with
  | nil => intro st h; exact ⟨st, rfl⟩
  | cons e rest ih =>
    intro st h
    obtain ⟨c, j⟩ := e
    unfold accessEntriesValid at h
    rw [List.all_cons, Bool.and_eq_true] at h
    obtain ⟨h1, h2⟩ := h
    rw [Bool.and_eq_true, Bool.and_eq_true] at h1
    obtain ⟨⟨hcb, hab⟩, hpb⟩ := h1
    have hc : c ≤ maxIpmiChannels := of_decide_eq_true hcb
    cases ham : convertToAccessModeIndex j.accessMode with
    | error e2 =>
      simp only [ham] at hab
      exact Bool.noConfusion hab
    | ok am =>
      cases hpm : convertToPrivLimitIndex j.privLimit with
      | error e2 =>
        simp only [hpm] at hpb
        exact Bool.noConfusion hpb
      | ok pl =>
        have hstep : applyVolAccessEntry st c j = .ok
            (updVolatile (updVolatile st c (fun x =>
              { x with accessMode := am, userAuthDisabled := j.userAuthDisabled,
                       perMsgAuthDisabled := j.perMsgAuthDisabled,
                       alertingDisabled := j.alertingDisabled })) c
              (fun x => { x with privLimit := pl })) := by
          unfold applyVolAccessEntry
          rw [if_neg (by omega : ¬ c > maxIpmiChannels)]
          simp only [ham, hpm]
        obtain ⟨st', hrest⟩ := ih _ h2
        refine ⟨st', ?_⟩
        unfold applyVolEntries
        simp only [hstep]
        exact hrest

theorem readNv_entries (st : State) (l : List (Nat × AccessJson)) (stb : State)
    (h : st.fs.nvFile = some (.entries l))
    (happ : applyNvEntries l (bumpRead st) = .ok stb) :
    readChannelPersistData st =
      .ok (0, { stb with nvFileLastUpdatedTime := statNv stb.fs }) := by
  have hB : (bumpRead st).fs.nvFile = some (.entries l) := h
  unfold readChannelPersistData
  simp only [hB, happ]

theorem readVol_entries (st : State) (l : List (Nat × AccessJson)) (stb : State)
    (h : st.fs.volFile = some (.entries l))
    (happ : applyVolEntries l (bumpRead st) = .ok stb) :
    readChannelVolatileData st =
      .ok (0, { stb with voltFileLastUpdatedTime := statVol stb.fs }) := by
  have hB : (bumpRead st).fs.volFile = some (.entries l) := h
  unfold readChannelVolatileData
  simp only [hB, happ]

theorem readNv_corrupt (st : State) (h : st.fs.nvFile = some .corrupt) :
    readChannelPersistData st = .error (bumpRead st) := by
  have hB : (bumpRead st).fs.nvFile = some .corrupt := h
  unfold readChannelPersistData
  simp only [hB]

theorem loadChannelStep_fs (cfg : List (Nat × ChanCfgJson)) (st : State)
    (c : Nat) : (loadChannelStep cfg st c).2.fs = st.fs := by
  unfold loadChannelStep
  cases hl : lookupCfg cfg c with
  | none =>
    simp only [hl]
    unfold setDefaultChannelConfig
    rfl
  | some jj =>
    simp only [hl]
    cases hinfo : jj.chInfo with
    | none =>
      simp only [hinfo]
    | some info =>
      simp only [hinfo]
      cases hm : convertToMediumTypeIndex info.mediumType with
      | error e =>
        simp only [hm]
      | ok mt =>
        simp only [hm]
        cases hp : convertToProtocolTypeIndex info.protocolType with
        | error e =>
          simp only [hp]
        | ok pt =>
          simp only [hp]
          cases hsv : convertToSessionSupportIndex info.sessionSupported with
          | error e =>
            simp only [hsv]
          | ok ssup =>
            simp only [hsv]

theorem loadChannelLoop_fs (cfg : List (Nat × ChanCfgJson)) :
    ∀ (l : List Nat) (st : State), (loadChannelLoop cfg l st).2.fs = st.fs := by
  intro l
  induction l with
  | nil => intro st; rfl
  | cons x rest ih =>
    intro st
    unfold loadChannelLoop
    cases hstep : loadChannelStep cfg st x with
    | mk r st1 =>
      simp only [hstep]
      have hstfs : st1.fs = st.fs := by
        have := loadChannelStep_fs cfg st x
        rw [hstep] at this
        exact this
      by_cases hr : r = 0
      · rw [if_pos hr, ih st1, hstfs]
      · rw [if_neg hr]
        exact hstfs

theorem loadChannelConfig_fs (st : State) :
    (loadChannelConfig st).2.fs = (bumpRead st).fs := by
  unfold loadChannelConfig
  cases hc : (bumpRead st).fs.configFile with
  | none =>
    simp only [hc]
  | some cfg =>
    simp only [hc]
    exact loadChannelLoop_fs cfg (List.range maxIpmiChannels) (bumpRead st)

/-- Counterexample to C5 as stated: with a present-but-unparsable
non-volatile file, reading it fails (by throwing), yet the shipped default
is *not* copied over it and the read is *not* retried — initialization
aborts immediately.  After the abort the non-volatile file still holds the
corrupt content (not the shipped default), and exactly two file reads
happened (config + the one failed non-volatile read: no retry). -/
theorem claim_C5_cx :
    initChannelPersistData stBootCorrupt =
      .error (bumpRead (loadChannelConfig stBootCorrupt).2) ∧
    (bumpRead (loadChannelConfig stBootCorrupt).2).fs.nvFile = some .corrupt ∧
    stBootCorrupt.fs.defaultAccessFile ≠ some JsonFile.corrupt ∧
    (bumpRead (loadChannelConfig stBootCorrupt).2).fs.readCount = 2 :=
  ⟨rfl, rfl, by decide, rfl⟩

/-- C5 (amended): during first construction, the shipped-default copy
and the single retry happen only when the non-volatile read *returns* an
error (file absent); a present-but-unparsable file aborts initialization
by an uncaught exception with no copy and no retry (see the
counterexample).  (i) When neither a non-volatile nor a volatile file
pre-exists and the static config and the shipped default access file are
valid, initialization succeeds, the non-volatile file ends equal in
content to the shipped default, the volatile file ends equal to the
non-volatile file, and exactly five file reads happened (config, failed
non-volatile read + one retry, failed volatile read + one retry — each
read retried exactly once).  (ii) If the retried non-volatile read fails
again (corrupt shipped default), initialization aborts. -/
theorem claim_C5 :
    (∀ st st1 dl,
      st.fs.nvFile = none →
      st.fs.volFile = none →
      st.fs.defaultAccessFile = some (.entries dl) →
      accessEntriesValid dl = true →
      loadChannelConfig st = (0, st1) →
      ∃ st', initChannelPersistData st = .ok st' ∧
        st'.fs.nvFile = some (.entries dl) ∧
        st'.fs.volFile = st'.fs.nvFile ∧
        st'.fs.readCount = st.fs.readCount + 5) ∧
    (∀ st st1,
      st.fs.nvFile = none →
      st.fs.defaultAccessFile = some .corrupt →
      loadChannelConfig st = (0, st1) →
      ∃ stE, initChannelPersistData st = .error stE) := by
  constructor
  · intro st st1 dl hnv hvol hdef hval hload
    have hfs1 : st1.fs = (bumpRead st).fs := by
      have h := loadChannelConfig_fs st
      rw [hload] at h
      exact h
    have hnv1 : st1.fs.nvFile = none := by
      rw [hfs1]
      exact hnv
    have hread1 : readChannelPersistData st1 = .ok (-5, bumpRead st1) :=
      readNv_absent st1 hnv1
    have h2nv : (bumpRead st1).fs.nvFile = none := hnv1
    have h2def : (bumpRead st1).fs.defaultAccessFile = some (.entries dl) := by
      show st1.fs.defaultAccessFile = _
      rw [hfs1]
      exact hdef
    obtain ⟨stb, happb⟩ := applyNvEntries_ok_of_valid dl
      (bumpRead (copyDefaultToNv (bumpRead st1) (.entries dl))) hval
    have hread2 : readChannelPersistData
        (copyDefaultToNv (bumpRead st1) (.entries dl)) =
        .ok (0, { stb with nvFileLastUpdatedTime := statNv stb.fs }) :=
      readNv_entries _ dl stb rfl happb
    obtain ⟨hstbfs, -, -⟩ := applyNvEntries_shell dl _ stb (Or.inl happb)
    have hvol5 : stb.fs.volFile = none := by
      rw [hstbfs]
      show st1.fs.volFile = none
      rw [hfs1]
      exact hvol
    have hnv5 : stb.fs.nvFile = some (.entries dl) := by
      rw [hstbfs]
      rfl
    have hread3 : readChannelVolatileData
        { stb with nvFileLastUpdatedTime := statNv stb.fs } =
        .ok (-5, bumpRead { stb with nvFileLastUpdatedTime := statNv stb.fs }) :=
      readVol_absent _ hvol5
    obtain ⟨stv, happv⟩ := applyVolEntries_ok_of_valid dl
      (bumpRead (copyNvToVol
        (bumpRead { stb with nvFileLastUpdatedTime := statNv stb.fs })
        (.entries dl))) hval
    have hread4 : readChannelVolatileData
        (copyNvToVol
          (bumpRead { stb with nvFileLastUpdatedTime := statNv stb.fs })
          (.entries dl)) =
        .ok (0, { stv with voltFileLastUpdatedTime := statVol stv.fs }) :=
      readVol_entries _ dl stv rfl happv
    obtain ⟨hstvfs, -, -⟩ := applyVolEntries_shell dl _ stv (Or.inl happv)
    refine ⟨{ stv with voltFileLastUpdatedTime := statVol stv.fs },
      ?_, ?_, ?_, ?_⟩
    · unfold initChannelPersistData
      simp only [hload]
      rw [if_neg (by decide : ¬ (0 : Int) ≠ 0)]
      simp only [hread1]
      rw [if_neg (by decide : ¬ (-5 : Int) = 0)]
      simp only [h2nv, Option.isSome_none, Bool.false_eq_true, if_false]
      simp only [h2def, hread2]
      rw [if_neg (by decide : ¬ (0 : Int) ≠ 0)]
      simp only [hread3]
      rw [if_neg (by decide : ¬ (-5 : Int) = 0)]
      have h6vol : (bumpRead
          { stb with nvFileLastUpdatedTime := statNv stb.fs }).fs.volFile =
          none := hvol5
      simp only [h6vol, Option.isSome_none, Bool.false_eq_true, if_false]
      have h6nv : (bumpRead
          { stb with nvFileLastUpdatedTime := statNv stb.fs }).fs.nvFile =
          some (.entries dl) := hnv5
      simp only [h6nv, hread4]
      rw [if_neg (by decide : ¬ (0 : Int) ≠ 0)]
    · show stv.fs.nvFile = some (.entries dl)
      rw [hstvfs]
      exact hnv5
    · show stv.fs.volFile = stv.fs.nvFile
      rw [hstvfs]
      show some (JsonFile.entries dl) = stb.fs.nvFile
      exact hnv5.symm
    · show stv.fs.readCount = st.fs.readCount + 5
      have h1 : stv.fs.readCount = stb.fs.readCount + 2 := by
        rw [hstvfs]
        rfl
      have h2 : stb.fs.readCount = st1.fs.readCount + 2 := by
        rw [hstbfs]
        rfl
      have h3 : st1.fs.readCount = st.fs.readCount + 1 := by
        rw [hfs1]
        rfl
      omega
  · intro st st1 hnv hdefC hload
    have hfs1 : st1.fs = (bumpRead st).fs := by
      have h := loadChannelConfig_fs st
      rw [hload] at h
      exact h
    have hnv1 : st1.fs.nvFile = none := by
      rw [hfs1]
      exact hnv
    have hread1 : readChannelPersistData st1 = .ok (-5, bumpRead st1) :=
      readNv_absent st1 hnv1
    have h2nv : (bumpRead st1).fs.nvFile = none := hnv1
    have h2def : (bumpRead st1).fs.defaultAccessFile = some .corrupt := by
      show st1.fs.defaultAccessFile = _
      rw [hfs1]
      exact hdefC
    have hread2 : readChannelPersistData
        (copyDefaultToNv (bumpRead st1) .corrupt) =
        .error (bumpRead (copyDefaultToNv (bumpRead st1) .corrupt)) :=
      readNv_corrupt _ rfl
    refine ⟨bumpRead (copyDefaultToNv (bumpRead st1) .corrupt), ?_⟩
    unfold initChannelPersistData
    simp only [hload]
    rw [if_neg (by decide : ¬ (0 : Int) ≠ 0)]
    simp only [hread1]
    rw [if_neg (by decide : ¬ (-5 : Int) = 0)]
    simp only [h2nv, Option.isSome_none, Bool.false_eq_true, if_false]
    simp only [h2def, hread2]

/-- Witness for C5 (amended), part (i): a fresh boot (`stBoot`, no
non-volatile and no volatile file, valid config and default) succeeds with
nv = shipped default, volatile = nv, and exactly five file reads. -/
theorem claim_C5_witness :
    (initResult stBoot).map
      (fun s => (s.fs.nvFile, s.fs.volFile, s.fs.readCount)) =
    some (some (.entries [(1, jsonLan)]), some (.entries [(1, jsonLan)]), 5) := by
  obtain ⟨st', h1, h2, h3, h4⟩ := claim_C5.1 stBoot (loadChannelConfig stBoot).2
    [(1, jsonLan)] rfl rfl rfl (by decide) rfl
  unfold initResult
  rw [h1]
  show some (st'.fs.nvFile, st'.fs.volFile, st'.fs.readCount) = _
  rw [h2, h3, h2, h4]
  rfl

end ChannelMgmt
